import Mathlib

/-!
# A shallow embedding of the sqlite3 JNI bridge layer (ext/jni/src/c/sqlite3-jni.c)

This development models the native/managed bridge state of the sqlite3 JNI
binding: the per-thread `S3JniEnv` cache, the per-connection `S3JniDb`
registry with its used/free recycling lists, the hook slots, the
auto-extension registry and the UDF classification logic, together with the
JNI entry points the specification describes.

Modelling conventions:
* Java object identities are natural numbers (`0` = the null reference).
* A `jobject` reference (global or local) is a pair of a reference token and
  the object it designates; `IsSameObject` compares the objects, while the
  tokens let us observe whether a stored strong reference was replaced or
  released.  Creating a reference mints a fresh token.
* The doubly-linked used/free lists of the C code are modelled as Lean lists
  of record ids; pushing at `aHead`/`aUsed`/`aFree` is `cons`, unlinking an
  interior element is `List.erase`.
* Mutex enter/leave pairs only guard in-memory structures and are no-ops in
  this sequential embedding.
* `s3jni_malloc` and `new_NativePointerHolder_object` fail fatally (process
  abort) on OOM in the C code, so in the model they always succeed; the only
  allocation failure that produces a returning error path in the modelled
  functions is the UTF-8 conversion of Java strings, driven by an explicit
  oracle argument.
* Calls into Java are resolved through a `JavaWorld` oracle giving each
  object's method table and callback behaviour.  A `CallIntMethod` whose
  callee throws yields 0 (the JVM's de-facto value) with the pending
  exception flag set.
* Calls into the sqlite3 engine proper (out of scope of the spec) are
  recorded in an event log and report `SQLITE_OK`, except for `sqlite3_open*`
  whose outcome is an explicit argument.
-/

namespace S3Jni

/-! ## Result codes (values from sqlite3.h) -/

def SQLITE_OK : Int := 0
def SQLITE_ERROR : Int := 1
def SQLITE_NOMEM : Int := 7
def SQLITE_MISUSE : Int := 21
def SQLITE_FORMAT : Int := 24
def SQLITE_UTF8 : Int := 1
def SQLITE_UTF16LE : Int := 2
def SQLITE_UTF16BE : Int := 3
def SQLITE_UTF16 : Int := 4

/-! ## Java references -/

/-- A `jobject`: a reference token plus the identity of the object it
designates.  `obj = 0` is the null reference.  `IsSameObject` compares the
`obj` components. -/
structure JRef where
  tok : Nat
  obj : Nat
deriving DecidableEq, Repr

/-- The null `jobject`. -/
def JRef.null : JRef := ⟨0, 0⟩

instance : Inhabited JRef := ⟨JRef.null⟩

/-! ## Bridge data structures (struct S3JniHook, S3JniDb, S3JniEnv, ...) -/

/-- `struct S3JniHook`: a global reference to a Java callback object plus the
method id of its callback method. -/
structure S3JniHook where
  jObj : JRef
  midCallback : Nat
deriving DecidableEq, Repr

/-- A zeroed hook slot (`memset(s, 0, sizeof(*s))`). -/
def S3JniHook.empty : S3JniHook := ⟨JRef.null, 0⟩

instance : Inhabited S3JniHook := ⟨S3JniHook.empty⟩

/-- The fixed set of hook slots of `S3JniDb.hooks` (with
`SQLITE_ENABLE_PREUPDATE_HOOK` defined). -/
structure S3JniHooks where
  busyHandler : S3JniHook
  collation : S3JniHook
  collationNeeded : S3JniHook
  commit : S3JniHook
  progress : S3JniHook
  rollback : S3JniHook
  trace : S3JniHook
  update : S3JniHook
  auth : S3JniHook
  preUpdate : S3JniHook
deriving DecidableEq, Repr

/-- All hook slots zeroed. -/
def S3JniHooks.empty : S3JniHooks :=
  ⟨S3JniHook.empty, S3JniHook.empty, S3JniHook.empty, S3JniHook.empty,
   S3JniHook.empty, S3JniHook.empty, S3JniHook.empty, S3JniHook.empty,
   S3JniHook.empty, S3JniHook.empty⟩

instance : Inhabited S3JniHooks := ⟨S3JniHooks.empty⟩

/-- `struct S3JniDb`: per-(sqlite3*) state.  `pDb` is the native handle
(0 = NULL), `jDb` the global reference to the Java-side `sqlite3` wrapper,
`zMainDbName` the string allocated for `SQLITE_DBCONFIG_MAINDBNAME` (modelled
by the string object's id).  The `pNext`/`pPrev` links are represented by
membership in the used/free lists of the global state. -/
structure S3JniDb where
  pDb : Nat
  jDb : JRef
  zMainDbName : Option Nat
  hooks : S3JniHooks
deriving DecidableEq, Repr

/-- A zeroed `S3JniDb` record (`memset(s, 0, sizeof(S3JniDb))`). -/
def S3JniDb.empty : S3JniDb := ⟨0, JRef.null, none, S3JniHooks.empty⟩

instance : Inhabited S3JniDb := ⟨S3JniDb.empty⟩

/-- `struct S3JniEnv`: per-thread (per-`JNIEnv`) cache row.  `env` is the
thread identity (0 = unset), `pdbOpening` the id of the `S3JniDb` record of a
connection currently being opened on this thread (0 = none). -/
structure S3JniEnv where
  env : Nat
  pdbOpening : Nat
deriving DecidableEq, Repr

/-- A zeroed `S3JniEnv` row. -/
def S3JniEnv.empty : S3JniEnv := ⟨0, 0⟩

instance : Inhabited S3JniEnv := ⟨S3JniEnv.empty⟩

/-- `struct S3JniAutoExtension`: a global reference to a Java
`AutoExtension` object plus the method id of its `xEntryPoint`. -/
structure S3JniAutoExtension where
  jObj : JRef
  midFunc : Nat
deriving DecidableEq, Repr

/-- A zeroed auto-extension slot. -/
def S3JniAutoExtension.empty : S3JniAutoExtension := ⟨JRef.null, 0⟩

instance : Inhabited S3JniAutoExtension := ⟨S3JniAutoExtension.empty⟩

/-- Type IDs for SQL function categories (`enum UDFType`). -/
inductive UDFType where
  | scalar
  | aggregate
  | window
  | unknown
deriving DecidableEq, Repr

/-! ## Observable events -/

/-- Calls made by the bridge into the sqlite3 engine (hook registration,
busy timeout, UDF registration, ...). -/
inductive NativeCall where
  | busyHandlerSet (db : Nat)
  | busyHandlerClear (db : Nat)
  | busyTimeout (db : Nat) (ms : Int)
  | commitHookSet (db : Nat)
  | commitHookClear (db : Nat)
  | rollbackHookSet (db : Nat)
  | rollbackHookClear (db : Nat)
  | updateHookSet (db : Nat)
  | updateHookClear (db : Nat)
  | preUpdateHookSet (db : Nat)
  | preUpdateHookClear (db : Nat)
  | traceSet (db : Nat) (mask : Int)
  | traceClear (db : Nat)
  | progressSet (db : Nat) (n : Int)
  | progressClear (db : Nat)
  | authSet (db : Nat)
  | authClear (db : Nat)
  | collationNeededSet (db : Nat)
  | collationNeededClear (db : Nat)
  | createCollation (db : Nat)
  | createFunction (db : Nat) (kind : UDFType)
  | autoExtInstall
deriving DecidableEq, Repr

/-- Events observable at the bridge's boundaries, in chronological order:
`xDestroy()` teardown invocations, releases of global references (by token),
calls into the native engine, and auto-extension entry-point invocations
(recording the extension object, the wrapper object passed to it and the
native pointer stored in that wrapper at call time). -/
inductive BEvent where
  | destroy (obj : Nat)
  | releaseRef (tok : Nat)
  | native (c : NativeCall)
  | extInvoke (obj wrapper ptr : Nat)
deriving DecidableEq, Repr

/-! ## The global bridge state (struct S3JniGlobalType) -/

/-- The process-wide bridge state `S3JniGlobal`, together with the Java-heap
facts the bridge manipulates (the `nativePointer` field of wrapper objects)
and the observable event log.

* `dbRec`/`dbUsed`/`dbFree` model `SJG.perDb`: an arena of `S3JniDb`
  records addressed by id (ids are nonzero), the used-list (`aUsed`, head
  first) and the free-list (`aFree`, head first).  `dbNextId` is the next
  fresh arena id.
* `envRow`/`envUsed`/`envFree` model `SJG.envCache` the same way.
* `autoExt` models `SJG.autoExt.pExt[0..nExt)`; `autoExtOnce` is the static
  `once` flag of `sqlite3_auto_extension`.
* `nativePtr` maps a wrapper object id to the value of its
  `NativePointerHolder.nativePointer` field.
* `nextTok` mints reference tokens, `nextObj` mints Java object ids.
* `pendingEx` is the JNI pending-exception flag.
* `dbErrCode` records the per-connection error code set through
  `s3jni_db_error` (`sqlite3Error*`).
* The remaining fields are the `SJG.metrics` counters the modelled
  operations touch. -/
structure BridgeState where
  dbRec : Nat → S3JniDb
  dbUsed : List Nat
  dbFree : List Nat
  dbNextId : Nat
  envRow : Nat → S3JniEnv
  envUsed : List Nat
  envFree : List Nat
  envNextId : Nat
  autoExt : List S3JniAutoExtension
  autoExtOnce : Bool
  nativePtr : Nat → Nat
  nextTok : Nat
  nextObj : Nat
  pendingEx : Bool
  dbErrCode : Nat → Int
  events : List BEvent
  envCacheHits : Nat
  envCacheMisses : Nat
  envCacheAllocs : Nat
  nPdbAlloc : Nat
  nPdbRecycled : Nat
  nDestroy : Nat

/-- The zero-initialized global state (`static S3JniGlobalType S3JniGlobal`),
with arena ids and reference tokens starting at 1. -/
def BridgeState.init : BridgeState :=
  { dbRec := fun _ => S3JniDb.empty
    dbUsed := []
    dbFree := []
    dbNextId := 1
    envRow := fun _ => S3JniEnv.empty
    envUsed := []
    envFree := []
    envNextId := 1
    autoExt := []
    autoExtOnce := false
    nativePtr := fun _ => 0
    nextTok := 1
    nextObj := 1
    pendingEx := false
    dbErrCode := fun _ => 0
    events := []
    envCacheHits := 0
    envCacheMisses := 0
    envCacheAllocs := 0
    nPdbAlloc := 0
    nPdbRecycled := 0
    nDestroy := 0 }

/-- The states of the Java side the bridge consults but does not own: each
object's method table (`GetMethodID`, `none` = lookup throws
`NoSuchMethodError`), and the behaviour of callback objects when invoked
(`...Result` is the returned value, `...Throws` whether the call raises). -/
structure JavaWorld where
  method : Nat → String → Option Nat
  extResult : Nat → Int
  extThrows : Nat → Bool
  collResult : Nat → List Int → List Int → Int
  collThrows : Nat → List Int → List Int → Bool

/-! ## Reference-management helpers (REF_G / UNREF_G / REF_L) -/

/-- `new_global_ref` / `REF_G`: a null argument stays null, otherwise a fresh
reference (fresh token) to the same object is created. -/
def mkRef (v : JRef) (st : BridgeState) : JRef × BridgeState :=
  if v.obj = 0 then (JRef.null, st)
  else (⟨st.nextTok, v.obj⟩, { st with nextTok := st.nextTok + 1 })

/-- `delete_global_ref` / `UNREF_G`: a no-op on null, otherwise the reference
token is released (logged). -/
def unRef (v : JRef) (st : BridgeState) : BridgeState :=
  if v.obj = 0 then st
  else { st with events := st.events ++ [BEvent.releaseRef v.tok] }

/-! ## Per-thread env cache (S3JniGlobal.envCache) -/

/-- The scan of the env-cache used-list performed by
`S3JniGlobal_env_cache` and `S3JniGlobal_env_uncache`: the first row (from
`aHead`) whose `env` field equals the given thread. -/
def envFind (tid : Nat) (st : BridgeState) : Option Nat :=
  st.envUsed.find? fun i => (st.envRow i).env = tid

/-- `S3JniGlobal_env_cache(env)`: fetch the `S3JniGlobal.envCache` row for
the given thread, allocating (or recycling from the free-list) a zeroed row
if needed.  Returns the row id. -/
def S3JniGlobal_env_cache (tid : Nat) (st : BridgeState) : Nat × BridgeState :=
  match envFind tid st with
  | some i => (i, { st with envCacheHits := st.envCacheHits + 1 })
  | none =>
    match st.envFree with
    | r :: rest =>
      (r, { st with
              envCacheMisses := st.envCacheMisses + 1
              envFree := rest
              envUsed := r :: st.envUsed
              envRow := Function.update st.envRow r { S3JniEnv.empty with env := tid } })
    | [] =>
      (st.envNextId,
       { st with
           envCacheMisses := st.envCacheMisses + 1
           envCacheAllocs := st.envCacheAllocs + 1
           envNextId := st.envNextId + 1
           envUsed := st.envNextId :: st.envUsed
           envRow := Function.update st.envRow st.envNextId
                       { S3JniEnv.empty with env := tid } })

/-- `S3JniGlobal_env_uncache(env)`: remove the row for the given thread from
the used-list, zero it and push it onto the free-list.  Returns whether a row
was found. -/
def S3JniGlobal_env_uncache (tid : Nat) (st : BridgeState) : Bool × BridgeState :=
  match envFind tid st with
  | none => (false, st)
  | some i =>
    (true, { st with
               envUsed := st.envUsed.erase i
               envRow := Function.update st.envRow i S3JniEnv.empty
               envFree := i :: st.envFree })

/-! ## Error reporting and teardown helpers -/

/-- `s3jni_db_error(db, err_code, zMsg)`: record `err_code` as the
connection's error state (no-op on a null db) and return `err_code`. -/
def s3jni_db_error (db : Nat) (errCode : Int) (st : BridgeState) :
    Int × BridgeState :=
  if db = 0 then (errCode, st)
  else (errCode, { st with dbErrCode := Function.update st.dbErrCode db errCode })

/-- `s3jni_call_xDestroy(jObj)`: invoke `jObj.xDestroy()` if the object is
non-null and its class has that method; a missing method or a throwing
`xDestroy()` is silently swallowed. -/
def s3jni_call_xDestroy (jvm : JavaWorld) (jObj : JRef) (st : BridgeState) :
    BridgeState :=
  if jObj.obj = 0 then st
  else
    match jvm.method jObj.obj "xDestroy" with
    | some _ =>
      { st with
          nDestroy := st.nDestroy + 1
          events := st.events ++ [BEvent.destroy jObj.obj] }
    | none => st

/-- `S3JniHook_unref(s, doXDestroy)`: optionally invoke the callback's
`xDestroy()`, release the global reference and zero the slot.  Returns the
zeroed slot value (to be stored back by the caller) and the new state. -/
def S3JniHook_unref (jvm : JavaWorld) (s : S3JniHook) (doXDestroy : Bool)
    (st : BridgeState) : S3JniHook × BridgeState :=
  let st1 := if doXDestroy ∧ s.jObj.obj ≠ 0 then s3jni_call_xDestroy jvm s.jObj st
             else st
  (S3JniHook.empty, unRef s.jObj st1)

/-! ## Per-connection registry (S3JniGlobal.perDb) -/

/-- The value component of `REF_G` (`new_global_ref`). -/
def mkRefVal (v : JRef) (st : BridgeState) : JRef :=
  if v.obj = 0 then JRef.null else ⟨st.nextTok, v.obj⟩

/-- The state component of `REF_G` (`new_global_ref`). -/
def mkRefSt (v : JRef) (st : BridgeState) : BridgeState :=
  if v.obj = 0 then st else { st with nextTok := st.nextTok + 1 }

/-- `S3JniDb_alloc(env, pDb, jDb)`: pop a record from the connection
free-list (metric `nPdbRecycled`) or allocate a fresh zeroed one (metric
`nPdbAlloc`; `s3jni_malloc` aborts the process on OOM, so allocation always
succeeds here), push it onto the used-list head, store a new global
reference to `jDb` and the handle `pDb` into it, and return its id. -/
def S3JniDb_alloc (pDb : Nat) (jDb : JRef) (st : BridgeState) :
    Nat × BridgeState :=
  match st.dbFree with
  | rv :: rest =>
    let st1 : BridgeState :=
      { st with
          dbFree := rest
          nPdbRecycled := st.nPdbRecycled + 1
          dbUsed := rv :: st.dbUsed }
    let g := mkRefVal jDb st1
    let st2 := mkRefSt jDb st1
    (rv, { st2 with
             dbRec := Function.update st2.dbRec rv
               { st2.dbRec rv with jDb := g, pDb := pDb } })
  | [] =>
    let rv := st.dbNextId
    let st1 : BridgeState :=
      { st with
          dbNextId := rv + 1
          nPdbAlloc := st.nPdbAlloc + 1
          dbRec := Function.update st.dbRec rv S3JniDb.empty
          dbUsed := rv :: st.dbUsed }
    let g := mkRefVal jDb st1
    let st2 := mkRefSt jDb st1
    (rv, { st2 with
             dbRec := Function.update st2.dbRec rv
               { st2.dbRec rv with jDb := g, pDb := pDb } })

/-- `S3JniDb_set_aside(s)`: unlink the record from the used-list, release
its main-db-name string, tear down every populated hook slot (`collation`,
`collationNeeded` and `busyHandler` with their `xDestroy()` notification),
release the wrapper reference, zero the record and push it onto the
free-list head. -/
def S3JniDb_set_aside (jvm : JavaWorld) (sid : Nat) (st : BridgeState) :
    BridgeState :=
  if sid = 0 then st
  else
    let s := st.dbRec sid
    let st1 := { st with dbUsed := st.dbUsed.erase sid }
    let st2 := (S3JniHook_unref jvm s.hooks.trace false st1).2
    let st3 := (S3JniHook_unref jvm s.hooks.progress false st2).2
    let st4 := (S3JniHook_unref jvm s.hooks.commit false st3).2
    let st5 := (S3JniHook_unref jvm s.hooks.rollback false st4).2
    let st6 := (S3JniHook_unref jvm s.hooks.update false st5).2
    let st7 := (S3JniHook_unref jvm s.hooks.auth false st6).2
    let st8 := (S3JniHook_unref jvm s.hooks.preUpdate false st7).2
    let st9 := (S3JniHook_unref jvm s.hooks.collation true st8).2
    let st10 := (S3JniHook_unref jvm s.hooks.collationNeeded true st9).2
    let st11 := (S3JniHook_unref jvm s.hooks.busyHandler true st10).2
    let st12 := unRef s.jDb st11
    { st12 with
        dbRec := Function.update st12.dbRec sid S3JniDb.empty
        dbFree := sid :: st12.dbFree }

/-- `S3JniDb_for_db(jDb, pDb)`: resolve the `S3JniDb` record id (0 = NULL)
for a connection, given the Java wrapper and/or the native handle.  When
`pDb` is 0 the handle is fished out of the wrapper's `nativePointer` field;
because the C scan loop `for( ; pDb && s; ...)` does not run when that
handle is 0, a wrapper holding a null pointer yields the used-list *head*
(the `s` cursor is never advanced to NULL). -/
def S3JniDb_for_db (jDb : JRef) (pDb : Nat) (st : BridgeState) : Nat :=
  if jDb.obj = 0 ∧ pDb = 0 then 0
  else
    let p := if pDb = 0 then st.nativePtr jDb.obj else pDb
    if p = 0 then st.dbUsed.headD 0
    else (st.dbUsed.find? fun i => (st.dbRec i).pDb = p).getD 0

/-! ## The registry invariant (claim C1) -/

/-- The registry invariant: the used- and free-lists are duplicate-free and
disjoint, any nonzero native handle is held by at most one used record,
free-list records are zeroed, and all linked ids are below the arena
high-water mark. -/
def DbInvariant (st : BridgeState) : Prop :=
  st.dbUsed.Nodup ∧ st.dbFree.Nodup ∧
  (∀ i ∈ st.dbUsed, i ∉ st.dbFree) ∧
  (∀ i ∈ st.dbUsed, ∀ j ∈ st.dbUsed,
    (st.dbRec i).pDb ≠ 0 → (st.dbRec i).pDb = (st.dbRec j).pDb → i = j) ∧
  (∀ i ∈ st.dbFree, st.dbRec i = S3JniDb.empty) ∧
  (∀ i ∈ st.dbUsed, i < st.dbNextId) ∧
  (∀ i ∈ st.dbFree, i < st.dbNextId)

instance (st : BridgeState) : Decidable (DbInvariant st) := by
  unfold DbInvariant; infer_instance

/-! ### Frame facts about the reference/teardown helpers -/

@[simp] theorem unRef_dbRec (v : JRef) (st : BridgeState) :
    (unRef v st).dbRec = st.dbRec := by
  unfold unRef; split <;> rfl

@[simp] theorem unRef_dbUsed (v : JRef) (st : BridgeState) :
    (unRef v st).dbUsed = st.dbUsed := by
  unfold unRef; split <;> rfl

@[simp] theorem unRef_dbFree (v : JRef) (st : BridgeState) :
    (unRef v st).dbFree = st.dbFree := by
  unfold unRef; split <;> rfl

@[simp] theorem unRef_dbNextId (v : JRef) (st : BridgeState) :
    (unRef v st).dbNextId = st.dbNextId := by
  unfold unRef; split <;> rfl

@[simp] theorem call_xDestroy_dbRec (jvm : JavaWorld) (v : JRef) (st : BridgeState) :
    (s3jni_call_xDestroy jvm v st).dbRec = st.dbRec := by
  unfold s3jni_call_xDestroy; split
  · rfl
  · split <;> rfl

@[simp] theorem call_xDestroy_dbUsed (jvm : JavaWorld) (v : JRef) (st : BridgeState) :
    (s3jni_call_xDestroy jvm v st).dbUsed = st.dbUsed := by
  unfold s3jni_call_xDestroy; split
  · rfl
  · split <;> rfl

@[simp] theorem call_xDestroy_dbFree (jvm : JavaWorld) (v : JRef) (st : BridgeState) :
    (s3jni_call_xDestroy jvm v st).dbFree = st.dbFree := by
  unfold s3jni_call_xDestroy; split
  · rfl
  · split <;> rfl

@[simp] theorem call_xDestroy_dbNextId (jvm : JavaWorld) (v : JRef) (st : BridgeState) :
    (s3jni_call_xDestroy jvm v st).dbNextId = st.dbNextId := by
  unfold s3jni_call_xDestroy; split
  · rfl
  · split <;> rfl

@[simp] theorem hook_unref_dbRec (jvm : JavaWorld) (s : S3JniHook) (d : Bool)
    (st : BridgeState) : ((S3JniHook_unref jvm s d st).2).dbRec = st.dbRec := by
  unfold S3JniHook_unref; simp only [unRef_dbRec]; split <;> simp

@[simp] theorem hook_unref_dbUsed (jvm : JavaWorld) (s : S3JniHook) (d : Bool)
    (st : BridgeState) : ((S3JniHook_unref jvm s d st).2).dbUsed = st.dbUsed := by
  unfold S3JniHook_unref; simp only [unRef_dbUsed]; split <;> simp

@[simp] theorem hook_unref_dbFree (jvm : JavaWorld) (s : S3JniHook) (d : Bool)
    (st : BridgeState) : ((S3JniHook_unref jvm s d st).2).dbFree = st.dbFree := by
  unfold S3JniHook_unref; simp only [unRef_dbFree]; split <;> simp

@[simp] theorem hook_unref_dbNextId (jvm : JavaWorld) (s : S3JniHook) (d : Bool)
    (st : BridgeState) : ((S3JniHook_unref jvm s d st).2).dbNextId = st.dbNextId := by
  unfold S3JniHook_unref; simp only [unRef_dbNextId]; split <;> simp

@[simp] theorem mkRefSt_dbRec (v : JRef) (st : BridgeState) :
    (mkRefSt v st).dbRec = st.dbRec := by
  unfold mkRefSt; split <;> rfl

@[simp] theorem mkRefSt_dbUsed (v : JRef) (st : BridgeState) :
    (mkRefSt v st).dbUsed = st.dbUsed := by
  unfold mkRefSt; split <;> rfl

@[simp] theorem mkRefSt_dbFree (v : JRef) (st : BridgeState) :
    (mkRefSt v st).dbFree = st.dbFree := by
  unfold mkRefSt; split <;> rfl

@[simp] theorem mkRefSt_dbNextId (v : JRef) (st : BridgeState) :
    (mkRefSt v st).dbNextId = st.dbNextId := by
  unfold mkRefSt; split <;> rfl

@[simp] theorem mkRefVal_obj (v : JRef) (st : BridgeState) :
    (mkRefVal v st).obj = v.obj := by
  unfold mkRefVal; split
  · simp [JRef.null]; omega
  · rfl

/-! ### Shapes of the registry operations -/

theorem S3JniDb_alloc_used (pDb : Nat) (jDb : JRef) (st : BridgeState) :
    (S3JniDb_alloc pDb jDb st).2.dbUsed =
      (S3JniDb_alloc pDb jDb st).1 :: st.dbUsed := by
  unfold S3JniDb_alloc
  cases hf : st.dbFree <;> simp

theorem S3JniDb_alloc_free (pDb : Nat) (jDb : JRef) (st : BridgeState) :
    (S3JniDb_alloc pDb jDb st).2.dbFree = st.dbFree.tail := by
  unfold S3JniDb_alloc
  cases hf : st.dbFree <;> simp

theorem S3JniDb_alloc_nextId (pDb : Nat) (jDb : JRef) (st : BridgeState) :
    (S3JniDb_alloc pDb jDb st).2.dbNextId =
      if st.dbFree = [] then st.dbNextId + 1 else st.dbNextId := by
  unfold S3JniDb_alloc
  cases hf : st.dbFree <;> simp

theorem S3JniDb_alloc_free_decomp (pDb : Nat) (jDb : JRef) (st : BridgeState)
    (h : st.dbFree ≠ []) :
    st.dbFree = (S3JniDb_alloc pDb jDb st).1 :: st.dbFree.tail := by
  unfold S3JniDb_alloc
  cases hf : st.dbFree with
  | nil => exact absurd hf h
  | cons rv rest => simp

theorem S3JniDb_alloc_rid_of_free (pDb : Nat) (jDb : JRef) (st : BridgeState)
    (h : st.dbFree ≠ []) : (S3JniDb_alloc pDb jDb st).1 ∈ st.dbFree := by
  rw [S3JniDb_alloc_free_decomp pDb jDb st h]
  exact List.mem_cons_self _ _

theorem S3JniDb_alloc_rid_of_nil (pDb : Nat) (jDb : JRef) (st : BridgeState)
    (h : st.dbFree = []) : (S3JniDb_alloc pDb jDb st).1 = st.dbNextId := by
  unfold S3JniDb_alloc
  cases hf : st.dbFree with
  | nil => simp
  | cons rv rest => exact absurd hf (by simp [h])

theorem S3JniDb_alloc_rec_other (pDb : Nat) (jDb : JRef) (st : BridgeState)
    (j : Nat) (h : j ≠ (S3JniDb_alloc pDb jDb st).1) :
    (S3JniDb_alloc pDb jDb st).2.dbRec j = st.dbRec j := by
  unfold S3JniDb_alloc
  unfold S3JniDb_alloc at h
  cases hf : st.dbFree with
  | nil =>
    rw [hf] at h; simp only at h
    simp [Function.update_noteq h]
  | cons rv rest =>
    rw [hf] at h; simp only at h
    simp [Function.update_noteq h]

theorem S3JniDb_alloc_rec_pDb (pDb : Nat) (jDb : JRef) (st : BridgeState) :
    ((S3JniDb_alloc pDb jDb st).2.dbRec (S3JniDb_alloc pDb jDb st).1).pDb
      = pDb := by
  unfold S3JniDb_alloc
  cases hf : st.dbFree <;> simp

theorem S3JniDb_alloc_rec_jDb (pDb : Nat) (jDb : JRef) (st : BridgeState) :
    ((S3JniDb_alloc pDb jDb st).2.dbRec (S3JniDb_alloc pDb jDb st).1).jDb.obj
      = jDb.obj := by
  unfold S3JniDb_alloc
  cases hf : st.dbFree <;> simp

theorem S3JniDb_alloc_rec_rest (pDb : Nat) (jDb : JRef) (st : BridgeState)
    (h : st.dbFree ≠ [] → st.dbRec (S3JniDb_alloc pDb jDb st).1 = S3JniDb.empty) :
    ((S3JniDb_alloc pDb jDb st).2.dbRec (S3JniDb_alloc pDb jDb st).1).hooks
        = S3JniHooks.empty ∧
    ((S3JniDb_alloc pDb jDb st).2.dbRec
        (S3JniDb_alloc pDb jDb st).1).zMainDbName = none := by
  unfold S3JniDb_alloc
  cases hf : st.dbFree with
  | nil => simp [S3JniDb.empty, S3JniHooks.empty]
  | cons rv rest =>
    have h' := h (by simp [hf])
    unfold S3JniDb_alloc at h'
    rw [hf] at h'
    simp only at h'
    simp only [Function.update_same, mkRefSt_dbRec]
    rw [show st.dbRec rv = S3JniDb.empty from h']
    simp [S3JniDb.empty]

/-- The state produced by `S3JniDb_set_aside`, componentwise (for a nonzero
record id). -/
theorem S3JniDb_set_aside_shape (jvm : JavaWorld) (sid : Nat) (st : BridgeState)
    (h : sid ≠ 0) :
    (S3JniDb_set_aside jvm sid st).dbUsed = st.dbUsed.erase sid ∧
    (S3JniDb_set_aside jvm sid st).dbFree = sid :: st.dbFree ∧
    (S3JniDb_set_aside jvm sid st).dbNextId = st.dbNextId ∧
    (S3JniDb_set_aside jvm sid st).dbRec =
      Function.update st.dbRec sid S3JniDb.empty := by
  unfold S3JniDb_set_aside
  simp [h]

/-! ### Invariant preservation -/

/-- `S3JniDb_alloc` preserves the registry invariant provided the handle to
be stored is either NULL (as at its only call site, `s3jni_open_pre`) or not
yet held by any used record. -/
theorem DbInvariant_alloc (pDb : Nat) (jDb : JRef) (st : BridgeState)
    (h : DbInvariant st)
    (hp : pDb = 0 ∨ ∀ i ∈ st.dbUsed, (st.dbRec i).pDb ≠ pDb) :
    DbInvariant (S3JniDb_alloc pDb jDb st).2 := by
  obtain ⟨h1, h2, h3, h4, h5, h6, h7⟩ := h
  have hused := S3JniDb_alloc_used pDb jDb st
  have hfree := S3JniDb_alloc_free pDb jDb st
  have hnext := S3JniDb_alloc_nextId pDb jDb st
  have hpdb := S3JniDb_alloc_rec_pDb pDb jDb st
  have hother := S3JniDb_alloc_rec_other pDb jDb st
  have hridnotused : (S3JniDb_alloc pDb jDb st).1 ∉ st.dbUsed := by
    by_cases hc : st.dbFree = []
    · rw [S3JniDb_alloc_rid_of_nil pDb jDb st hc]
      intro hm
      exact absurd (h6 _ hm) (lt_irrefl _)
    · intro hm
      exact h3 _ hm (S3JniDb_alloc_rid_of_free pDb jDb st hc)
  have hridnottail : (S3JniDb_alloc pDb jDb st).1 ∉ st.dbFree.tail := by
    by_cases hc : st.dbFree = []
    · simp [hc]
    · have hd := S3JniDb_alloc_free_decomp pDb jDb st hc
      have h2' := h2
      rw [hd] at h2'
      exact (List.nodup_cons.mp h2').1
  have htailsub : ∀ i ∈ st.dbFree.tail, i ∈ st.dbFree :=
    fun i hi => List.mem_of_mem_tail hi
  refine ⟨?_, ?_, ?_, ?_, ?_, ?_, ?_⟩
  · rw [hused]
    exact List.nodup_cons.mpr ⟨hridnotused, h1⟩
  · rw [hfree]
    exact h2.sublist (List.tail_sublist _)
  · rw [hused, hfree]
    intro i hi
    rcases List.mem_cons.mp hi with rfl | hi'
    · exact hridnottail
    · exact fun hm => h3 i hi' (htailsub i hm)
  · rw [hused]
    intro i hi j hj hi0 hij
    rcases List.mem_cons.mp hi with rfl | hi' <;>
      rcases List.mem_cons.mp hj with rfl | hj'
    · rfl
    · exfalso
      rw [hpdb] at hi0
      rw [hpdb, hother j (fun hc => hridnotused (hc ▸ hj'))] at hij
      rcases hp with rfl | hp'
      · exact hi0 rfl
      · exact hp' j hj' hij.symm
    · exfalso
      rw [hother i (fun hc => hridnotused (hc ▸ hi')), hpdb] at hij
      rw [hother i (fun hc => hridnotused (hc ▸ hi'))] at hi0
      rcases hp with rfl | hp'
      · rw [hij] at hi0
        exact hi0 rfl
      · exact hp' i hi' hij
    · rw [hother i (fun hc => hridnotused (hc ▸ hi')),
          hother j (fun hc => hridnotused (hc ▸ hj'))] at hij
      rw [hother i (fun hc => hridnotused (hc ▸ hi'))] at hi0
      exact h4 i hi' j hj' hi0 hij
  · rw [hfree]
    intro i hi
    rw [hother i (fun hc => hridnottail (hc ▸ hi))]
    exact h5 i (htailsub i hi)
  · rw [hused, hnext]
    intro i hi
    rcases List.mem_cons.mp hi with rfl | hi'
    · by_cases hc : st.dbFree = []
      · rw [S3JniDb_alloc_rid_of_nil pDb jDb st hc]
        simp [hc]
      · have := h7 _ (S3JniDb_alloc_rid_of_free pDb jDb st hc)
        split <;> omega
    · have := h6 i hi'
      split <;> omega
  · rw [hfree, hnext]
    intro i hi
    have := h7 i (htailsub i hi)
    split <;> omega

/-- `S3JniDb_set_aside` preserves the registry invariant when applied to a
used-list record (its call sites pass either a record found by
`S3JniDb_for_db` or the record pre-created by `s3jni_open_pre`, both of
which are linked in the used-list). -/
theorem DbInvariant_set_aside (jvm : JavaWorld) (sid : Nat) (st : BridgeState)
    (h : DbInvariant st) (hsid : sid ∈ st.dbUsed) :
    DbInvariant (S3JniDb_set_aside jvm sid st) := by
  by_cases h0 : sid = 0
  · subst h0
    unfold S3JniDb_set_aside
    simpa using h
  obtain ⟨h1, h2, h3, h4, h5, h6, h7⟩ := h
  obtain ⟨su, sf, sn, sr⟩ := S3JniDb_set_aside_shape jvm sid st h0
  have hsidfree : sid ∉ st.dbFree := h3 sid hsid
  refine ⟨?_, ?_, ?_, ?_, ?_, ?_, ?_⟩
  · rw [su]
    exact h1.erase sid
  · rw [sf]
    exact List.nodup_cons.mpr ⟨hsidfree, h2⟩
  · rw [su, sf]
    intro i hi
    have hi' := (h1.mem_erase_iff.mp hi)
    intro hmem
    rcases List.mem_cons.mp hmem with rfl | hm
    · exact hi'.1 rfl
    · exact h3 i hi'.2 hm
  · rw [su, sr]
    intro i hi j hj
    have hi' := h1.mem_erase_iff.mp hi
    have hj' := h1.mem_erase_iff.mp hj
    rw [Function.update_noteq hi'.1, Function.update_noteq hj'.1]
    exact h4 i hi'.2 j hj'.2
  · rw [sf, sr]
    intro i hi
    rcases List.mem_cons.mp hi with rfl | hm
    · rw [Function.update_same]
    · have : i ≠ sid := fun hc => hsidfree (hc ▸ hm)
      rw [Function.update_noteq this]
      exact h5 i hm
  · rw [su, sn]
    intro i hi
    exact h6 i (List.mem_of_mem_erase hi)
  · rw [sf, sn]
    intro i hi
    rcases List.mem_cons.mp hi with rfl | hm
    · exact h6 i hsid
    · exact h7 i hm

/-- C1: in the per-connection registry, at most one used-list record holds
any given live native handle, no record is linked in both the used-list and
the free-list, `S3JniDb_alloc` and `S3JniDb_set_aside` preserve this
invariant (`S3JniDb_for_db` does not mutate the registry at all — in this
embedding it is a pure function — and a successful lookup for a nonzero
handle yields a used-list record holding exactly that handle), and a record
handed out by `S3JniDb_alloc` — in particular one recycled from the
free-list by an earlier `S3JniDb_set_aside` — carries the freshly stored
handle and a fresh wrapper reference, with all other fields cleared. -/
theorem C1_registry_invariant (jvm : JavaWorld) (st : BridgeState)
    (pDb : Nat) (jDb : JRef) (sid : Nat) (jfind : JRef) (pfind : Nat)
    (hinv : DbInvariant st)
    (halloc : pDb = 0 ∨ ∀ i ∈ st.dbUsed, (st.dbRec i).pDb ≠ pDb)
    (hsid : sid ∈ st.dbUsed) (hpf : pfind ≠ 0) :
    DbInvariant (S3JniDb_alloc pDb jDb st).2 ∧
    DbInvariant (S3JniDb_set_aside jvm sid st) ∧
    (S3JniDb_for_db jfind pfind st ≠ 0 →
      S3JniDb_for_db jfind pfind st ∈ st.dbUsed ∧
      (st.dbRec (S3JniDb_for_db jfind pfind st)).pDb = pfind) ∧
    ((S3JniDb_alloc pDb jDb st).2.dbRec (S3JniDb_alloc pDb jDb st).1).pDb
        = pDb ∧
    ((S3JniDb_alloc pDb jDb st).2.dbRec (S3JniDb_alloc pDb jDb st).1).jDb.obj
        = jDb.obj ∧
    ((S3JniDb_alloc pDb jDb st).2.dbRec (S3JniDb_alloc pDb jDb st).1).hooks
        = S3JniHooks.empty ∧
    ((S3JniDb_alloc pDb jDb st).2.dbRec
        (S3JniDb_alloc pDb jDb st).1).zMainDbName = none ∧
    (S3JniDb_alloc pDb jDb st).1 ∈ (S3JniDb_alloc pDb jDb st).2.dbUsed ∧
    (S3JniDb_alloc pDb jDb st).1 ∉ (S3JniDb_alloc pDb jDb st).2.dbFree := by
  obtain ⟨h1, h2, h3, h4, h5, h6, h7⟩ := hinv
  have hrest := S3JniDb_alloc_rec_rest pDb jDb st
    (fun hc => h5 _ (S3JniDb_alloc_rid_of_free pDb jDb st hc))
  refine ⟨DbInvariant_alloc pDb jDb st ⟨h1, h2, h3, h4, h5, h6, h7⟩ halloc,
          DbInvariant_set_aside jvm sid st ⟨h1, h2, h3, h4, h5, h6, h7⟩ hsid,
          ?_, S3JniDb_alloc_rec_pDb pDb jDb st,
          S3JniDb_alloc_rec_jDb pDb jDb st, hrest.1, hrest.2, ?_, ?_⟩
  · intro hne
    unfold S3JniDb_for_db at hne ⊢
    have hcond : ¬(jfind.obj = 0 ∧ pfind = 0) := fun hc => hpf hc.2
    rw [if_neg hcond] at hne ⊢
    simp only [if_neg hpf] at hne ⊢
    cases hfind : st.dbUsed.find? fun i => (st.dbRec i).pDb = pfind with
    | none => rw [hfind] at hne; simp at hne
    | some r =>
      simp only [Option.getD_some] at hne ⊢
      have hmem := List.mem_of_find?_eq_some hfind
      have hp := List.find?_some hfind
      simp only [decide_eq_true_eq] at hp
      exact ⟨hmem, hp⟩
  · rw [S3JniDb_alloc_used pDb jDb st]
    exact List.mem_cons_self _ _
  · rw [S3JniDb_alloc_free pDb jDb st]
    by_cases hc : st.dbFree = []
    · simp [hc]
    · have hd := S3JniDb_alloc_free_decomp pDb jDb st hc
      have h2' := h2
      rw [hd] at h2'
      exact (List.nodup_cons.mp h2').1

/-- A sample `JavaWorld` for concrete executions: every object's class has
every method, callbacks return 0 and do not throw. -/
def exJvm : JavaWorld :=
  { method := fun _ n => if n = "xDestroy" then some 11 else some 21
    extResult := fun _ => 0
    extThrows := fun _ => false
    collResult := fun _ _ _ => 0
    collThrows := fun _ _ _ => false }

/-- A sample registry state: one used record (id 1) holding native handle
100 and wrapper object 40. -/
def exDbState : BridgeState :=
  { BridgeState.init with
      dbRec := Function.update (fun _ => S3JniDb.empty) 1
        { S3JniDb.empty with pDb := 100, jDb := ⟨5, 40⟩ }
      dbUsed := [1]
      dbNextId := 2 }

/-- Witness for C1 at a concrete registry state. -/
theorem C1_registry_invariant_witness :
    DbInvariant (S3JniDb_alloc 0 ⟨6, 41⟩ exDbState).2 ∧
    DbInvariant (S3JniDb_set_aside exJvm 1 exDbState) ∧
    (S3JniDb_for_db ⟨5, 40⟩ 100 exDbState ≠ 0 →
      S3JniDb_for_db ⟨5, 40⟩ 100 exDbState ∈ exDbState.dbUsed ∧
      (exDbState.dbRec (S3JniDb_for_db ⟨5, 40⟩ 100 exDbState)).pDb = 100) ∧
    ((S3JniDb_alloc 0 ⟨6, 41⟩ exDbState).2.dbRec
        (S3JniDb_alloc 0 ⟨6, 41⟩ exDbState).1).pDb = 0 ∧
    ((S3JniDb_alloc 0 ⟨6, 41⟩ exDbState).2.dbRec
        (S3JniDb_alloc 0 ⟨6, 41⟩ exDbState).1).jDb.obj = 41 ∧
    ((S3JniDb_alloc 0 ⟨6, 41⟩ exDbState).2.dbRec
        (S3JniDb_alloc 0 ⟨6, 41⟩ exDbState).1).hooks = S3JniHooks.empty ∧
    ((S3JniDb_alloc 0 ⟨6, 41⟩ exDbState).2.dbRec
        (S3JniDb_alloc 0 ⟨6, 41⟩ exDbState).1).zMainDbName = none ∧
    (S3JniDb_alloc 0 ⟨6, 41⟩ exDbState).1 ∈
      (S3JniDb_alloc 0 ⟨6, 41⟩ exDbState).2.dbUsed ∧
    (S3JniDb_alloc 0 ⟨6, 41⟩ exDbState).1 ∉
      (S3JniDb_alloc 0 ⟨6, 41⟩ exDbState).2.dbFree :=
  C1_registry_invariant exJvm exDbState 0 ⟨6, 41⟩ 1 ⟨5, 40⟩ 100
    (by decide) (Or.inl rfl) (by decide) (by decide)

/-! ## The env-cache invariant and acquire-stability (claim C3) -/

/-- The env-cache invariant: used- and free-lists duplicate-free and
disjoint, at most one used row per thread identity, all linked ids below the
high-water mark. -/
def EnvInvariant (st : BridgeState) : Prop :=
  st.envUsed.Nodup ∧ st.envFree.Nodup ∧
  (∀ i ∈ st.envUsed, i ∉ st.envFree) ∧
  (∀ i ∈ st.envUsed, ∀ j ∈ st.envUsed,
    (st.envRow i).env = (st.envRow j).env → i = j) ∧
  (∀ i ∈ st.envUsed, i < st.envNextId) ∧
  (∀ i ∈ st.envFree, i < st.envNextId)

instance (st : BridgeState) : Decidable (EnvInvariant st) := by
  unfold EnvInvariant; infer_instance

/-- `List.find?` returns the designated element when it is the unique
element satisfying the predicate. -/
theorem find?_eq_some_of_unique {l : List Nat} {p : Nat → Bool} {r : Nat}
    (hu : ∀ i ∈ l, p i = true → i = r) (hr : r ∈ l) (hp : p r = true) :
    l.find? p = some r := by
  induction l with
  | nil => cases hr
  | cons a as ih =>
    by_cases ha : p a = true
    · rw [List.find?_cons_of_pos _ ha]
      exact congrArg some (hu a (List.mem_cons_self _ _) ha)
    · rw [List.find?_cons_of_neg _ ha]
      rcases List.mem_cons.mp hr with rfl | hr'
      · exact absurd hp ha
      · exact ih (fun i hi hpi => hu i (List.mem_cons_of_mem _ hi) hpi) hr'

/-- `S3JniGlobal_env_cache` on a cache hit. -/
theorem env_cache_eq_hit {t : Nat} {st : BridgeState} {i : Nat}
    (hfind : envFind t st = some i) :
    S3JniGlobal_env_cache t st =
      (i, { st with envCacheHits := st.envCacheHits + 1 }) := by
  unfold S3JniGlobal_env_cache
  rw [hfind]

/-- `S3JniGlobal_env_cache` on a miss with a nonempty free-list. -/
theorem env_cache_eq_free {t : Nat} {st : BridgeState} {r : Nat} {rest : List Nat}
    (hfind : envFind t st = none) (hfree : st.envFree = r :: rest) :
    S3JniGlobal_env_cache t st =
      (r, { st with
              envCacheMisses := st.envCacheMisses + 1
              envFree := rest
              envUsed := r :: st.envUsed
              envRow := Function.update st.envRow r
                          { S3JniEnv.empty with env := t } }) := by
  unfold S3JniGlobal_env_cache
  rw [hfind, hfree]

/-- `S3JniGlobal_env_cache` on a miss with an empty free-list. -/
theorem env_cache_eq_nil {t : Nat} {st : BridgeState}
    (hfind : envFind t st = none) (hfree : st.envFree = []) :
    S3JniGlobal_env_cache t st =
      (st.envNextId,
       { st with
           envCacheMisses := st.envCacheMisses + 1
           envCacheAllocs := st.envCacheAllocs + 1
           envNextId := st.envNextId + 1
           envUsed := st.envNextId :: st.envUsed
           envRow := Function.update st.envRow st.envNextId
                       { S3JniEnv.empty with env := t } }) := by
  unfold S3JniGlobal_env_cache
  rw [hfind, hfree]

/-- Pushing a fresh row for a new thread onto the used-list keeps the
thread-identity field injective. -/
theorem envInj_push (row : Nat → S3JniEnv) (used : List Nat) (n t : Nat)
    (_hn : n ∉ used) (hnot : ∀ i ∈ used, (row i).env ≠ t)
    (h4 : ∀ i ∈ used, ∀ j ∈ used, (row i).env = (row j).env → i = j) :
    ∀ i ∈ n :: used, ∀ j ∈ n :: used,
      ((Function.update row n { S3JniEnv.empty with env := t }) i).env =
        ((Function.update row n { S3JniEnv.empty with env := t }) j).env →
      i = j := by
  intro i hi j hj heq
  by_cases hin : i = n
  · by_cases hjn : j = n
    · rw [hin, hjn]
    · exfalso
      have hj' : j ∈ used := by
        rcases List.mem_cons.mp hj with h | h
        · exact absurd h hjn
        · exact h
      rw [hin, Function.update_same, Function.update_noteq hjn] at heq
      exact hnot j hj' (by simpa [S3JniEnv.empty] using heq.symm)
  · have hi' : i ∈ used := by
      rcases List.mem_cons.mp hi with h | h
      · exact absurd h hin
      · exact h
    by_cases hjn : j = n
    · exfalso
      rw [hjn, Function.update_noteq hin, Function.update_same] at heq
      exact hnot i hi' (by simpa [S3JniEnv.empty] using heq)
    · have hj' : j ∈ used := by
        rcases List.mem_cons.mp hj with h | h
        · exact absurd h hjn
        · exact h
      rw [Function.update_noteq hin, Function.update_noteq hjn] at heq
      exact h4 i hi' j hj' heq

/-- After `S3JniGlobal_env_cache(T)` the returned row is the first used row
for `T`, its `env` field is `T`, and the invariant still holds. -/
theorem env_cache_spec (t : Nat) (st : BridgeState) (hinv : EnvInvariant st) :
    envFind t (S3JniGlobal_env_cache t st).2 = some (S3JniGlobal_env_cache t st).1 ∧
    ((S3JniGlobal_env_cache t st).2.envRow (S3JniGlobal_env_cache t st).1).env = t ∧
    EnvInvariant (S3JniGlobal_env_cache t st).2 := by
  obtain ⟨h1, h2, h3, h4, h5, h6⟩ := hinv
  cases hfind : envFind t st with
  | some i =>
    rw [env_cache_eq_hit hfind]
    dsimp only
    have henv := List.find?_some hfind
    simp only [decide_eq_true_eq] at henv
    exact ⟨hfind, henv, h1, h2, h3, h4, h5, h6⟩
  | none =>
    have hnot : ∀ i ∈ st.envUsed, (st.envRow i).env ≠ t := by
      intro i hi
      have := List.find?_eq_none.mp hfind i hi
      simpa using this
    cases hfree : st.envFree with
    | cons r rest =>
      rw [env_cache_eq_free hfind hfree]
      unfold EnvInvariant
      dsimp only
      have hrfree : r ∈ st.envFree := by rw [hfree]; exact List.mem_cons_self _ _
      have hrused : r ∉ st.envUsed := fun hm => h3 r hm hrfree
      have hrrest : r ∉ rest := by
        have h2' := h2; rw [hfree] at h2'; exact (List.nodup_cons.mp h2').1
      refine ⟨?_, ?_, ?_, ?_, ?_, ?_, ?_, ?_⟩
      · unfold envFind
        simp only [List.find?_cons, Function.update_same]
        simp [S3JniEnv.empty]
      · simp [S3JniEnv.empty]
      · exact List.nodup_cons.mpr ⟨hrused, h1⟩
      · exact h2.sublist (by rw [hfree]; exact List.sublist_cons_self _ _)
      · intro i hi
        rcases List.mem_cons.mp hi with rfl | hi'
        · exact hrrest
        · intro hm
          exact h3 i hi' (by rw [hfree]; exact List.mem_cons_of_mem _ hm)
      · exact envInj_push st.envRow st.envUsed r t hrused hnot h4
      · intro i hi
        rcases List.mem_cons.mp hi with rfl | hi'
        · exact h6 i hrfree
        · exact h5 i hi'
      · intro i hi
        exact h6 i (by rw [hfree]; exact List.mem_cons_of_mem _ hi)
    | nil =>
      rw [env_cache_eq_nil hfind hfree]
      unfold EnvInvariant
      dsimp only
      have hbound : st.envNextId ∉ st.envUsed := fun hm =>
        absurd (h5 _ hm) (lt_irrefl _)
      refine ⟨?_, ?_, ?_, ?_, ?_, ?_, ?_, ?_⟩
      · unfold envFind
        simp only [List.find?_cons, Function.update_same]
        simp [S3JniEnv.empty]
      · simp [S3JniEnv.empty]
      · exact List.nodup_cons.mpr ⟨hbound, h1⟩
      · exact h2
      · intro i hi
        rcases List.mem_cons.mp hi with rfl | hi'
        · rw [hfree]; simp
        · exact h3 i hi'
      · exact envInj_push st.envRow st.envUsed st.envNextId t hbound hnot h4
      · intro i hi
        rcases List.mem_cons.mp hi with rfl | hi'
        · omega
        · have := h5 i hi'; omega
      · intro i hi
        have := h6 i hi; omega

/-- `S3JniGlobal_env_uncache` when no row matches. -/
theorem env_uncache_eq_none {t : Nat} {st : BridgeState}
    (hfind : envFind t st = none) :
    S3JniGlobal_env_uncache t st = (false, st) := by
  unfold S3JniGlobal_env_uncache
  rw [hfind]

/-- `S3JniGlobal_env_uncache` when a row matches. -/
theorem env_uncache_eq_some {t : Nat} {st : BridgeState} {j : Nat}
    (hfind : envFind t st = some j) :
    S3JniGlobal_env_uncache t st =
      (true, { st with
                 envUsed := st.envUsed.erase j
                 envRow := Function.update st.envRow j S3JniEnv.empty
                 envFree := j :: st.envFree }) := by
  unfold S3JniGlobal_env_uncache
  rw [hfind]

/-- `S3JniGlobal_env_uncache` preserves the env-cache invariant. -/
theorem env_uncache_inv (t : Nat) (st : BridgeState) (hinv : EnvInvariant st) :
    EnvInvariant (S3JniGlobal_env_uncache t st).2 := by
  obtain ⟨h1, h2, h3, h4, h5, h6⟩ := hinv
  cases hfind : envFind t st with
  | none =>
    rw [env_uncache_eq_none hfind]
    exact ⟨h1, h2, h3, h4, h5, h6⟩
  | some j =>
    rw [env_uncache_eq_some hfind]
    unfold EnvInvariant
    dsimp only
    have hj : j ∈ st.envUsed := List.mem_of_find?_eq_some hfind
    have hjfree : j ∉ st.envFree := h3 j hj
    refine ⟨h1.erase j, List.nodup_cons.mpr ⟨hjfree, h2⟩, ?_, ?_, ?_, ?_⟩
    · intro i hi
      have hi' := h1.mem_erase_iff.mp hi
      intro hmem
      rcases List.mem_cons.mp hmem with rfl | hm
      · exact hi'.1 rfl
      · exact h3 i hi'.2 hm
    · intro i hi k hk
      have hi' := h1.mem_erase_iff.mp hi
      have hk' := h1.mem_erase_iff.mp hk
      rw [Function.update_noteq hi'.1, Function.update_noteq hk'.1]
      exact h4 i hi'.2 k hk'.2
    · intro i hi
      exact h5 i (List.mem_of_mem_erase hi)
    · intro i hi
      rcases List.mem_cons.mp hi with rfl | hm
      · exact h5 i hj
      · exact h6 i hm

/-- `List.find?` only depends on the predicate's values on the list. -/
theorem find?_congr_mem {l : List Nat} {p q : Nat → Bool}
    (h : ∀ i ∈ l, p i = q i) : l.find? p = l.find? q := by
  induction l with
  | nil => rfl
  | cons a as ih =>
    have ha := h a (List.mem_cons_self _ _)
    by_cases hp : p a = true
    · rw [List.find?_cons_of_pos _ hp, List.find?_cons_of_pos _ (ha ▸ hp)]
    · rw [List.find?_cons_of_neg _ hp,
          List.find?_cons_of_neg _ (by rw [← ha]; exact hp)]
      exact ih fun i hi => h i (List.mem_cons_of_mem _ hi)

/-! ### Sequences of env-cache operations -/

/-- The operations that structurally affect the env cache. -/
inductive EnvOp where
  | acquire (tid : Nat)
  | uncache (tid : Nat)
deriving DecidableEq, Repr

/-- Run one env-cache operation. -/
def runEnvOp (op : EnvOp) (st : BridgeState) : BridgeState :=
  match op with
  | .acquire t => (S3JniGlobal_env_cache t st).2
  | .uncache t => (S3JniGlobal_env_uncache t st).2

/-- Run a sequence of env-cache operations, oldest first. -/
def runEnvOps (ops : List EnvOp) (st : BridgeState) : BridgeState :=
  ops.foldl (fun s op => runEnvOp op s) st

/-- Whether an operation is the uncaching of thread `t`. -/
def EnvOp.isUncacheOf (op : EnvOp) (t : Nat) : Bool :=
  match op with
  | .uncache u => u = t
  | _ => false

/-- One env-cache operation that is not `uncache t` leaves the first used
row for `t` in place, and preserves the invariant. -/
theorem envFind_stable_op (t : Nat) (op : EnvOp) (st : BridgeState)
    (hinv : EnvInvariant st) (r : Nat) (hr : envFind t st = some r)
    (hop : op.isUncacheOf t = false) :
    envFind t (runEnvOp op st) = some r ∧ EnvInvariant (runEnvOp op st) := by
  obtain ⟨h1, h2, h3, h4, h5, h6⟩ := hinv
  cases op with
  | acquire u =>
    refine ⟨?_, (env_cache_spec u st ⟨h1, h2, h3, h4, h5, h6⟩).2.2⟩
    show envFind t (S3JniGlobal_env_cache u st).2 = some r
    cases hfind' : envFind u st with
    | some i =>
      rw [env_cache_eq_hit hfind']
      exact hr
    | none =>
      have hut : u ≠ t := by
        intro hc
        rw [hc, hr] at hfind'
        cases hfind'
      cases hfree : st.envFree with
      | cons n rest =>
        rw [env_cache_eq_free hfind' hfree]
        have hnused : n ∉ st.envUsed :=
          fun hm => h3 n hm (by rw [hfree]; exact List.mem_cons_self _ _)
        unfold envFind
        dsimp only
        rw [List.find?_cons_of_neg _ (by
          simp only [Function.update_same, decide_eq_true_eq, S3JniEnv.empty]
          simpa using hut)]
        rw [find?_congr_mem (fun i hi =>
          by rw [Function.update_noteq (fun hc : i = n => hnused (hc ▸ hi))])]
        exact hr
      | nil =>
        rw [env_cache_eq_nil hfind' hfree]
        have hnused : st.envNextId ∉ st.envUsed :=
          fun hm => absurd (h5 _ hm) (lt_irrefl _)
        unfold envFind
        dsimp only
        rw [List.find?_cons_of_neg _ (by
          simp only [Function.update_same, decide_eq_true_eq, S3JniEnv.empty]
          simpa using hut)]
        rw [find?_congr_mem (fun i hi =>
          by rw [Function.update_noteq
                   (fun hc : i = st.envNextId => hnused (hc ▸ hi))])]
        exact hr
  | uncache u =>
    have hut : u ≠ t := by simpa [EnvOp.isUncacheOf] using hop
    refine ⟨?_, env_uncache_inv u st ⟨h1, h2, h3, h4, h5, h6⟩⟩
    show envFind t (S3JniGlobal_env_uncache u st).2 = some r
    cases hfind' : envFind u st with
    | none =>
      rw [env_uncache_eq_none hfind']
      exact hr
    | some j =>
      rw [env_uncache_eq_some hfind']
      have hjmem : j ∈ st.envUsed := List.mem_of_find?_eq_some hfind'
      have hrmem : r ∈ st.envUsed := List.mem_of_find?_eq_some hr
      have hjenv : (st.envRow j).env = u := by
        have := List.find?_some hfind'; simpa using this
      have hrenv : (st.envRow r).env = t := by
        have := List.find?_some hr; simpa using this
      have hjr : j ≠ r := by
        intro hc
        rw [hc, hrenv] at hjenv
        exact hut hjenv.symm
      unfold envFind
      dsimp only
      apply find?_eq_some_of_unique
      · intro i hi hpi
        have hi' := h1.mem_erase_iff.mp hi
        rw [Function.update_noteq hi'.1] at hpi
        simp only [decide_eq_true_eq] at hpi
        exact h4 i hi'.2 r hrmem (by rw [hpi, hrenv])
      · exact h1.mem_erase_iff.mpr ⟨fun hc => hjr hc.symm, hrmem⟩
      · rw [Function.update_noteq (fun hc : r = j => hjr hc.symm)]
        simp [hrenv]

/-- A sequence of env-cache operations containing no `uncache t` leaves the
first used row for `t` in place, and preserves the invariant. -/
theorem envFind_stable_run (t : Nat) (ops : List EnvOp) (st : BridgeState)
    (hinv : EnvInvariant st) (r : Nat) (hr : envFind t st = some r)
    (hops : ∀ op ∈ ops, op.isUncacheOf t = false) :
    envFind t (runEnvOps ops st) = some r ∧
    EnvInvariant (runEnvOps ops st) := by
  induction ops generalizing st with
  | nil => exact ⟨hr, hinv⟩
  | cons op rest ih =>
    have h1 := envFind_stable_op t op st hinv r hr
      (hops op (List.mem_cons_self _ _))
    exact ih (runEnvOp op st) h1.2 h1.1
      (fun o ho => hops o (List.mem_cons_of_mem _ ho))

/-- C3: for every thread `T`, the execution-context acquire operation
returns a row whose thread-identity field equals `T`, and any later acquire
for `T` — after an arbitrary sequence of acquire/uncache operations that
contains no uncache of `T` — returns the identical row id, whose
thread-identity field still equals `T`.  Only an intervening
`S3JniGlobal_env_uncache(T)` can change which row object a later acquire
returns. -/
theorem C3_env_acquire_stable (st : BridgeState) (t : Nat)
    (hinv : EnvInvariant st) (ops : List EnvOp)
    (hops : ∀ op ∈ ops, op.isUncacheOf t = false) :
    ((S3JniGlobal_env_cache t st).2.envRow (S3JniGlobal_env_cache t st).1).env
        = t ∧
    (S3JniGlobal_env_cache t
        (runEnvOps ops (S3JniGlobal_env_cache t st).2)).1 =
      (S3JniGlobal_env_cache t st).1 ∧
    ((runEnvOps ops (S3JniGlobal_env_cache t st).2).envRow
        (S3JniGlobal_env_cache t st).1).env = t := by
  obtain ⟨hfind1, henv1, hinv1⟩ := env_cache_spec t st hinv
  obtain ⟨hfindN, hinvN⟩ := envFind_stable_run t ops _ hinv1 _ hfind1 hops
  refine ⟨henv1, ?_, ?_⟩
  · rw [env_cache_eq_hit hfindN]
  · have := List.find?_some hfindN
    simpa using this

/-- Witness for C3: thread 7 acquires a row, threads 8 and 9 come and go,
thread 7 acquires again and gets the same row. -/
theorem C3_env_acquire_stable_witness :
    ((S3JniGlobal_env_cache 7 BridgeState.init).2.envRow
        (S3JniGlobal_env_cache 7 BridgeState.init).1).env = 7 ∧
    (S3JniGlobal_env_cache 7
        (runEnvOps [EnvOp.acquire 8, EnvOp.uncache 8, EnvOp.acquire 9]
          (S3JniGlobal_env_cache 7 BridgeState.init).2)).1 =
      (S3JniGlobal_env_cache 7 BridgeState.init).1 ∧
    ((runEnvOps [EnvOp.acquire 8, EnvOp.uncache 8, EnvOp.acquire 9]
        (S3JniGlobal_env_cache 7 BridgeState.init).2).envRow
        (S3JniGlobal_env_cache 7 BridgeState.init).1).env = 7 :=
  C3_env_acquire_stable BridgeState.init 7 (by decide)
    [EnvOp.acquire 8, EnvOp.uncache 8, EnvOp.acquire 9] (by decide)

/-! ## Auto-extension registry (S3JniGlobal.autoExt) -/

/-- `S3JniAutoExtension_clear(ax)`: release the entry's Java reference and
zero it out; a no-op when the entry holds no object. -/
def S3JniAutoExtension_clear (ax : S3JniAutoExtension) (st : BridgeState) :
    S3JniAutoExtension × BridgeState :=
  if ax.jObj.obj = 0 then (ax, st)
  else (S3JniAutoExtension.empty, unRef ax.jObj st)

/-- `S3JniAutoExtension_init(ax, jAutoExt)`: look up `xEntryPoint` on the
object's class (a missing method clears the entry and reports
`SQLITE_ERROR`), else store a new global reference and the method id. -/
def S3JniAutoExtension_init (jvm : JavaWorld) (jAutoExt : JRef)
    (st : BridgeState) : Int × S3JniAutoExtension × BridgeState :=
  match jvm.method jAutoExt.obj "xEntryPoint" with
  | none => (SQLITE_ERROR, S3JniAutoExtension.empty, st)
  | some mid => (0, ⟨mkRefVal jAutoExt st, mid⟩, mkRefSt jAutoExt st)

/-- The predicate of the registration/cancellation scans:
`ax->jObj && IsSameObject(ax->jObj, jAutoExt)`. -/
def axMatches (o : Nat) (ax : S3JniAutoExtension) : Bool :=
  ax.jObj.obj != 0 && ax.jObj.obj == o

/-- The JNI binding of `sqlite3_auto_extension(jAutoExt)`: null is
`SQLITE_MISUSE`; an already-registered object is a no-op returning 0;
otherwise the array grows by one slot, the entry is initialized (failure:
`SQLITE_ERROR` with nothing registered), the engine's auto-extension hook is
installed on the first successful registration, and the entry becomes
active. -/
def sqlite3_auto_extension_jni (jvm : JavaWorld) (jAutoExt : JRef)
    (st : BridgeState) : Int × BridgeState :=
  if jAutoExt.obj = 0 then (SQLITE_MISUSE, st)
  else if st.autoExt.any (axMatches jAutoExt.obj) then (0, st)
  else
    let init := S3JniAutoExtension_init jvm jAutoExt st
    if init.1 ≠ 0 then (init.1, init.2.2)
    else
      let st2 :=
        if init.2.2.autoExtOnce then init.2.2
        else { init.2.2 with
                 autoExtOnce := true
                 events := init.2.2.events ++
                   [BEvent.native NativeCall.autoExtInstall] }
      (0, { st2 with autoExt := st2.autoExt ++ [init.2.1] })

/-- The scan of `sqlite3_cancel_auto_extension`: the index of the *last*
matching entry (the C loop runs `for( i = nExt-1; i >= 0; --i )`). -/
def findLastIdx {α : Type} (p : α → Bool) : List α → Option Nat
  | [] => none
  | a :: as =>
    match findLastIdx p as with
    | some i => some (i + 1)
    | none => if p a then some 0 else none

/-- The JNI binding of `sqlite3_cancel_auto_extension(jAutoExt)`: scan from
the end for an entry holding the object; on a match clear that entry, move
the final entry into its slot (swap-remove, mirroring the core's own
algorithm) and shrink the active count by one, returning true; with no
match return false. -/
def sqlite3_cancel_auto_extension (jAutoExt : JRef) (st : BridgeState) :
    Bool × BridgeState :=
  match findLastIdx (axMatches jAutoExt.obj) st.autoExt with
  | none => (false, st)
  | some i =>
    let ax := st.autoExt.getD i S3JniAutoExtension.empty
    let st1 := unRef ax.jObj st
    (true, { st1 with
               autoExt := (st1.autoExt.set i
                 (st1.autoExt.getLastD S3JniAutoExtension.empty)).dropLast })

/-! ### findLastIdx correctness -/

theorem findLastIdx_eq_none {α : Type} {p : α → Bool} :
    ∀ {l : List α}, findLastIdx p l = none ↔ ∀ a ∈ l, p a = false := by
  intro l
  induction l with
  | nil => simp [findLastIdx]
  | cons a as ih =>
    unfold findLastIdx
    cases hf : findLastIdx p as with
    | some i =>
      simp only []
      constructor
      · intro hc; cases hc
      · intro hall
        rw [ih.mpr (fun x hx => hall x (List.mem_cons_of_mem _ hx))] at hf
        cases hf
    | none =>
      simp only []
      constructor
      · intro hc
        by_cases hp : p a = true
        · rw [if_pos hp] at hc; cases hc
        · intro x hx
          rcases List.mem_cons.mp hx with rfl | hx'
          · simpa using hp
          · exact ih.mp hf x hx'
      · intro hall
        rw [if_neg (by simp [hall a (List.mem_cons_self _ _)])]

theorem findLastIdx_some_spec {α : Type} {p : α → Bool} :
    ∀ {l : List α} {i : Nat}, findLastIdx p l = some i →
      ∃ h : i < l.length, p (l.get ⟨i, h⟩) = true := by
  intro l
  induction l with
  | nil => intro i hc; cases hc
  | cons a as ih =>
    intro i hc
    unfold findLastIdx at hc
    cases hf : findLastIdx p as with
    | some j =>
      rw [hf] at hc
      simp only [Option.some.injEq] at hc
      obtain ⟨hj, hpj⟩ := ih hf
      subst hc
      exact ⟨by simpa using Nat.succ_lt_succ hj, hpj⟩
    | none =>
      rw [hf] at hc
      by_cases hp : p a = true
      · rw [if_pos hp] at hc
        simp only [Option.some.injEq] at hc
        subst hc
        exact ⟨by simp, hp⟩
      · rw [if_neg hp] at hc
        cases hc

/-! ### The swap-remove step -/

/-- Swap-removing index `i` (overwrite slot `i` with the last element, then
drop the last slot) yields a permutation of deleting index `i`. -/
theorem swapRemove_perm {α : Type} (l : List α) (hl : l ≠ []) (i : Nat)
    (hi : i < l.length) :
    ((l.set i (l.getLast hl)).dropLast).Perm (l.eraseIdx i) := by
  obtain ⟨b, hb⟩ : ∃ b, l.getLast hl = b := ⟨_, rfl⟩
  rw [hb]
  have hdecomp : l = l.dropLast ++ [b] := by
    rw [← hb]
    exact (List.dropLast_append_getLast hl).symm
  have hlen : l.dropLast.length = l.length - 1 := List.length_dropLast l
  have hpos : 0 < l.length := List.length_pos.mpr hl
  by_cases hlast : i = l.length - 1
  · have hset : l.set i b = l := by
      conv_lhs => rw [hdecomp]
      rw [List.set_append, if_neg (by omega)]
      have h0 : i - l.dropLast.length = 0 := by omega
      rw [h0]
      exact hdecomp.symm
    rw [hset]
    have herase : l.eraseIdx i = l.dropLast := by
      rw [List.eraseIdx_eq_take_drop_succ, List.dropLast_eq_take]
      have h1 : i + 1 = l.length := by omega
      rw [h1, List.drop_length, List.append_nil, hlast]
    rw [herase]
  · have hi' : i < l.dropLast.length := by omega
    have hset : l.set i b = (l.dropLast.set i b) ++ [b] := by
      conv_lhs => rw [hdecomp]
      rw [List.set_append, if_pos hi']
    rw [hset, List.dropLast_concat]
    have herase : l.eraseIdx i = (l.dropLast.eraseIdx i) ++ [b] := by
      conv_lhs => rw [hdecomp]
      rw [List.eraseIdx_append_of_lt_length hi']
    rw [herase]
    rw [List.set_eq_take_cons_drop _ hi', List.eraseIdx_eq_take_drop_succ]
    exact List.perm_middle.trans (List.perm_append_singleton _ _).symm

@[simp] theorem unRef_autoExt (v : JRef) (st : BridgeState) :
    (unRef v st).autoExt = st.autoExt := by
  unfold unRef; split <;> rfl

/-- C5: cancelling an auto-extension whose callback object is registered
exactly once removes exactly that entry (by swap-remove), decrements the
active count by one and returns true; entries for every other callback
object are untouched; a second cancel with the same object removes nothing,
changes nothing and returns false ("not found"). -/
theorem C5_cancel_auto_extension (st : BridgeState) (o : JRef)
    (hone : st.autoExt.countP (axMatches o.obj) = 1) :
    (sqlite3_cancel_auto_extension o st).1 = true ∧
    (sqlite3_cancel_auto_extension o st).2.autoExt.length + 1
        = st.autoExt.length ∧
    (sqlite3_cancel_auto_extension o st).2.autoExt.countP (axMatches o.obj)
        = 0 ∧
    (∀ wit : Nat, wit ≠ o.obj →
      (sqlite3_cancel_auto_extension o st).2.autoExt.countP
          (fun ax => ax.jObj.obj == wit) =
        st.autoExt.countP (fun ax => ax.jObj.obj == wit)) ∧
    sqlite3_cancel_auto_extension o (sqlite3_cancel_auto_extension o st).2 =
      (false, (sqlite3_cancel_auto_extension o st).2) := by
  cases hfind : findLastIdx (axMatches o.obj) st.autoExt with
  | none =>
    exfalso
    have hzero : st.autoExt.countP (axMatches o.obj) = 0 :=
      List.countP_eq_zero.mpr (fun a ha => by
        simpa using findLastIdx_eq_none.mp hfind a ha)
    rw [hzero] at hone
    cases hone
  | some i =>
    obtain ⟨hi, hpi⟩ := findLastIdx_some_spec hfind
    have hl : st.autoExt ≠ [] := by
      intro hc
      rw [hc] at hi
      simp at hi
    have hgld : st.autoExt.getLastD S3JniAutoExtension.empty
        = st.autoExt.getLast hl := by
      rw [List.getLastD_eq_getLast?, List.getLast?_eq_getLast _ hl]
      rfl
    have hcancel : sqlite3_cancel_auto_extension o st =
        (true,
         { unRef (st.autoExt.getD i S3JniAutoExtension.empty).jObj st with
             autoExt := (st.autoExt.set i
               (st.autoExt.getLast hl)).dropLast }) := by
      unfold sqlite3_cancel_auto_extension
      rw [hfind]
      dsimp only
      rw [unRef_autoExt, hgld]
    have hperm := swapRemove_perm st.autoExt hl i hi
    -- decompose the list around the removed entry
    have hgetelem : st.autoExt.get ⟨i, hi⟩ = st.autoExt[i] := rfl
    have hdecomp : st.autoExt =
        st.autoExt.take i ++ st.autoExt.get ⟨i, hi⟩ ::
          st.autoExt.drop (i + 1) := by
      conv_lhs => rw [← List.take_append_drop i st.autoExt]
      rw [List.drop_eq_getElem_cons hi]
      rfl
    have herase : st.autoExt.eraseIdx i =
        st.autoExt.take i ++ st.autoExt.drop (i + 1) :=
      List.eraseIdx_eq_take_drop_succ _ _
    have hcount : ∀ q : S3JniAutoExtension → Bool,
        st.autoExt.countP q =
          (st.autoExt.take i).countP q + (st.autoExt.drop (i + 1)).countP q +
            (if q (st.autoExt.get ⟨i, hi⟩) then 1 else 0) := by
      intro q
      conv_lhs => rw [hdecomp]
      rw [List.countP_append, List.countP_cons]
      omega
    have hzeroAB :
        (st.autoExt.take i).countP (axMatches o.obj) = 0 ∧
        (st.autoExt.drop (i + 1)).countP (axMatches o.obj) = 0 := by
      have := hcount (axMatches o.obj)
      rw [hone, if_pos hpi] at this
      omega
    have hcountErase : ∀ q : S3JniAutoExtension → Bool,
        (st.autoExt.eraseIdx i).countP q =
          (st.autoExt.take i).countP q + (st.autoExt.drop (i + 1)).countP q := by
      intro q
      rw [herase, List.countP_append]
    have hobj : (st.autoExt.get ⟨i, hi⟩).jObj.obj = o.obj := by
      have := hpi
      unfold axMatches at this
      simp only [Bool.and_eq_true, bne_iff_ne, ne_eq, beq_iff_eq] at this
      exact this.2
    rw [hcancel]
    dsimp only
    refine ⟨rfl, ?_, ?_, ?_, ?_⟩
    · rw [List.length_dropLast, List.length_set]
      omega
    · rw [hperm.countP_eq, hcountErase]
      omega
    · intro wit hw
      rw [hperm.countP_eq, hcountErase, hcount (fun ax => ax.jObj.obj == wit),
          if_neg (by
            simp only [beq_iff_eq, hobj]
            exact fun hc => hw hc.symm)]
      omega
    · have hnone : findLastIdx (axMatches o.obj)
          ((st.autoExt.set i (st.autoExt.getLast hl)).dropLast) = none := by
        apply findLastIdx_eq_none.mpr
        intro a ha
        have hz : ((st.autoExt.set i (st.autoExt.getLast hl)).dropLast).countP
            (axMatches o.obj) = 0 := by
          rw [hperm.countP_eq, hcountErase]
          omega
        have := List.countP_eq_zero.mp hz a ha
        simpa using this
      unfold sqlite3_cancel_auto_extension
      rw [show ({ unRef (st.autoExt.getD i S3JniAutoExtension.empty).jObj st with
             autoExt := (st.autoExt.set i
               (st.autoExt.getLast hl)).dropLast } : BridgeState).autoExt =
           (st.autoExt.set i (st.autoExt.getLast hl)).dropLast from rfl,
          hnone]

/-- A sample auto-extension registry with two distinct registered
extensions (objects 70 and 71). -/
def exAutoExtState : BridgeState :=
  { BridgeState.init with
      autoExt := [⟨⟨1, 70⟩, 21⟩, ⟨⟨2, 71⟩, 21⟩]
      autoExtOnce := true }

/-- Witness for C5: a registry holding two distinct extensions; cancelling
the first works once and only once. -/
theorem C5_cancel_auto_extension_witness :
    (sqlite3_cancel_auto_extension ⟨3, 70⟩ exAutoExtState).1 = true ∧
    (sqlite3_cancel_auto_extension ⟨3, 70⟩ exAutoExtState).2.autoExt.length + 1
        = exAutoExtState.autoExt.length ∧
    (sqlite3_cancel_auto_extension ⟨3, 70⟩
        exAutoExtState).2.autoExt.countP (axMatches 70) = 0 ∧
    (∀ wit : Nat, wit ≠ 70 →
      (sqlite3_cancel_auto_extension ⟨3, 70⟩ exAutoExtState).2.autoExt.countP
          (fun ax => ax.jObj.obj == wit) =
        exAutoExtState.autoExt.countP (fun ax => ax.jObj.obj == wit)) ∧
    sqlite3_cancel_auto_extension ⟨3, 70⟩
        (sqlite3_cancel_auto_extension ⟨3, 70⟩ exAutoExtState).2 =
      (false, (sqlite3_cancel_auto_extension ⟨3, 70⟩ exAutoExtState).2) :=
  C5_cancel_auto_extension exAutoExtState ⟨3, 70⟩ (by decide)

/-! ## The auto-extension runner (claim C2) -/

/-- The per-extension invocation inside `s3jni_run_java_auto_extensions`:
`rc = CallIntMethod(ax.jObj, ax.midFunc, ps->jDb)`, the `IFTHREW` handler
(clear the exception, build `*pzErr`, and `if(!rc) rc = SQLITE_ERROR`).
The invocation is logged with the wrapper object passed and the native
pointer stored in that wrapper at call time. -/
def invokeAutoExt (jvm : JavaWorld) (ax : S3JniAutoExtension) (wObj : Nat)
    (st : BridgeState) : Int × BridgeState :=
  let ret : Int := if jvm.extThrows ax.jObj.obj then 0
                   else jvm.extResult ax.jObj.obj
  let st1 := { st with
                 events := st.events ++
                   [BEvent.extInvoke ax.jObj.obj wObj (st.nativePtr wObj)] }
  let rc := if jvm.extThrows ax.jObj.obj ∧ ret = 0 then SQLITE_ERROR else ret
  (rc, st1)

/-- The invocation loop of `s3jni_run_java_auto_extensions`: each entry with
a non-null object is invoked (with the same wrapper), in list order,
stopping at the first nonzero result. -/
def autoExtLoop (jvm : JavaWorld) (wObj : Nat) :
    List S3JniAutoExtension → BridgeState → Int × BridgeState
  | [], st => (0, st)
  | ax :: rest, st =>
    if ax.jObj.obj = 0 then autoExtLoop jvm wObj rest st
    else
      let r := invokeAutoExt jvm ax wObj st
      if r.1 = 0 then autoExtLoop jvm wObj rest r.2
      else (r.1, r.2)

/-- `s3jni_run_java_auto_extensions(pDb, pzErr, ...)`: the single native
auto-extension hook the bridge installs.  Returns 0 immediately when no
extensions are registered.  Otherwise it fetches the current thread's env
row, reads the pending `S3JniDb` from the row's `pdbOpening` slot (a null
there is reported as `SQLITE_ERROR`), clears the slot, binds the now-known
native handle into the record and into the wrapper's `nativePointer` field,
and then invokes each registered extension in registration order. -/
def s3jni_run_java_auto_extensions (jvm : JavaWorld) (tid pDb : Nat)
    (st : BridgeState) : Int × BridgeState :=
  if st.autoExt = [] then (0, st)
  else
    let jc := (S3JniGlobal_env_cache tid st).1
    let st1 := (S3JniGlobal_env_cache tid st).2
    let ps := (st1.envRow jc).pdbOpening
    if ps = 0 then (SQLITE_ERROR, st1)
    else
      let st2 := { st1 with
                     envRow := Function.update st1.envRow jc
                       { st1.envRow jc with pdbOpening := 0 } }
      let st3 := { st2 with
                     dbRec := Function.update st2.dbRec ps
                       { st2.dbRec ps with pDb := pDb } }
      let w := (st3.dbRec ps).jDb.obj
      let st4 := { st3 with
                     nativePtr := Function.update st3.nativePtr w pDb }
      autoExtLoop jvm w st4.autoExt st4

/-- The result one extension invocation produces in the runner. -/
def extInvokeRc (jvm : JavaWorld) (o : Nat) : Int :=
  if jvm.extThrows o then SQLITE_ERROR else jvm.extResult o

/-- The extension objects actually invoked by the runner: the longest prefix
of extensions returning 0 without throwing, plus the first failing one. -/
def extRunInvoked (jvm : JavaWorld) : List S3JniAutoExtension → List Nat
  | [] => []
  | ax :: rest =>
    ax.jObj.obj ::
      (if extInvokeRc jvm ax.jObj.obj = 0 then extRunInvoked jvm rest else [])

/-- The overall result of running the extension list. -/
def extRunRc (jvm : JavaWorld) : List S3JniAutoExtension → Int
  | [] => 0
  | ax :: rest =>
    if extInvokeRc jvm ax.jObj.obj = 0 then extRunRc jvm rest
    else extInvokeRc jvm ax.jObj.obj

/-- The invocation loop only appends invocation events: it invokes the
extensions in order up to the first failure, each receiving the same wrapper
whose stored native pointer is read at call time. -/
theorem autoExtLoop_spec (jvm : JavaWorld) (wObj : Nat)
    (l : List S3JniAutoExtension) (st : BridgeState)
    (hnn : ∀ ax ∈ l, ax.jObj.obj ≠ 0) :
    autoExtLoop jvm wObj l st =
      (extRunRc jvm l,
       { st with
           events := st.events ++
             (extRunInvoked jvm l).map
               (fun o => BEvent.extInvoke o wObj (st.nativePtr wObj)) }) := by
  induction l generalizing st with
  | nil => simp [autoExtLoop, extRunRc, extRunInvoked]
  | cons ax rest ih =>
    have hax : ax.jObj.obj ≠ 0 := hnn ax (List.mem_cons_self _ _)
    have hinv : invokeAutoExt jvm ax wObj st =
        (extInvokeRc jvm ax.jObj.obj,
         { st with
             events := st.events ++
               [BEvent.extInvoke ax.jObj.obj wObj (st.nativePtr wObj)] }) := by
      unfold invokeAutoExt extInvokeRc
      by_cases ht : jvm.extThrows ax.jObj.obj <;> simp [ht]
    unfold autoExtLoop
    rw [if_neg hax]
    dsimp only
    rw [hinv]
    dsimp only
    by_cases hrc : extInvokeRc jvm ax.jObj.obj = 0
    · rw [if_pos hrc, ih _ (fun a ha => hnn a (List.mem_cons_of_mem _ ha))]
      simp only [extRunRc, extRunInvoked, if_pos hrc]
      simp [List.append_assoc]
    · rw [if_neg hrc]
      simp only [extRunRc, extRunInvoked, if_neg hrc]
      simp

/-- C2: when a native connection with handle `pDb` is opened on thread
`tid` while the (nonempty) extension list is registered, the auto-extension
proxy first binds `pDb` into the pending `S3JniDb` record found in the
thread's execution-context row and into the managed wrapper's
`nativePointer` field, clears the 'connection currently opening' slot, and
then invokes the registered extensions in registration order — stopping at
the first one that throws or returns nonzero — each invocation receiving
the same managed wrapper `w`, whose stored native pointer already equals
`pDb` at call time. -/
theorem C2_run_auto_extensions (jvm : JavaWorld) (st : BridgeState)
    (tid pDb jc ps w : Nat)
    (hne : st.autoExt ≠ [])
    (hnn : ∀ ax ∈ st.autoExt, ax.jObj.obj ≠ 0)
    (hjc : envFind tid st = some jc)
    (hps : (st.envRow jc).pdbOpening = ps)
    (hps0 : ps ≠ 0)
    (hw : (st.dbRec ps).jDb.obj = w) :
    (s3jni_run_java_auto_extensions jvm tid pDb st).1
        = extRunRc jvm st.autoExt ∧
    (s3jni_run_java_auto_extensions jvm tid pDb st).2.events =
      st.events ++ (extRunInvoked jvm st.autoExt).map
        (fun o => BEvent.extInvoke o w pDb) ∧
    ((s3jni_run_java_auto_extensions jvm tid pDb st).2.dbRec ps).pDb = pDb ∧
    ((s3jni_run_java_auto_extensions jvm tid pDb st).2.dbRec ps).jDb.obj
        = w ∧
    (s3jni_run_java_auto_extensions jvm tid pDb st).2.nativePtr w = pDb ∧
    ((s3jni_run_java_auto_extensions jvm tid pDb st).2.envRow jc).pdbOpening
        = 0 := by
  unfold s3jni_run_java_auto_extensions
  rw [if_neg hne, env_cache_eq_hit hjc]
  try dsimp only
  rw [hps, if_neg hps0]
  try dsimp only
  rw [Function.update_same]
  try dsimp only
  rw [hw]
  rw [autoExtLoop_spec jvm w st.autoExt _ hnn]
  try dsimp only
  refine ⟨rfl, ?_, ?_, ?_, ?_, ?_⟩
  · rw [Function.update_same]
  · rw [Function.update_same]
  · rw [Function.update_same, hw]
  · rw [Function.update_same]
  · rw [Function.update_same]

/-- A state in the middle of `sqlite3_open`: thread 3's env row holds the
pending record 1 (wrapper object 50, no native handle yet), and two
auto-extensions (objects 70 and 71) are registered. -/
def exOpenState : BridgeState :=
  { BridgeState.init with
      dbRec := Function.update (fun _ => S3JniDb.empty) 1
        { S3JniDb.empty with jDb := ⟨4, 50⟩ }
      dbUsed := [1]
      dbNextId := 2
      envRow := Function.update (fun _ => S3JniEnv.empty) 1 ⟨3, 1⟩
      envUsed := [1]
      envNextId := 2
      autoExt := [⟨⟨1, 70⟩, 21⟩, ⟨⟨2, 71⟩, 21⟩]
      autoExtOnce := true }

/-- Witness for C2: opening native handle 200 on thread 3 binds the handle
into pending record 1 and wrapper 50 and invokes extensions 70 then 71,
each seeing native pointer 200 in the wrapper. -/
theorem C2_run_auto_extensions_witness :
    (s3jni_run_java_auto_extensions exJvm 3 200 exOpenState).1
        = extRunRc exJvm exOpenState.autoExt ∧
    (s3jni_run_java_auto_extensions exJvm 3 200 exOpenState).2.events =
      exOpenState.events ++ (extRunInvoked exJvm exOpenState.autoExt).map
        (fun o => BEvent.extInvoke o 50 200) ∧
    ((s3jni_run_java_auto_extensions exJvm 3 200 exOpenState).2.dbRec 1).pDb
        = 200 ∧
    ((s3jni_run_java_auto_extensions exJvm 3 200
        exOpenState).2.dbRec 1).jDb.obj = 50 ∧
    (s3jni_run_java_auto_extensions exJvm 3 200 exOpenState).2.nativePtr 50
        = 200 ∧
    ((s3jni_run_java_auto_extensions exJvm 3 200
        exOpenState).2.envRow 1).pdbOpening = 0 :=
  C2_run_auto_extensions exJvm exOpenState 3 200 1 1 50
    (by decide) (by decide) (by decide) (by decide) (by decide) (by decide)

/-! ## Hook registration entry points -/

/-- Store a new hooks struct into record `ps`. -/
def updateHooks (st : BridgeState) (ps : Nat) (h : S3JniHooks) : BridgeState :=
  { st with
      dbRec := Function.update st.dbRec ps { st.dbRec ps with hooks := h } }

/-- Append a native-engine call to the event log. -/
def logNative (st : BridgeState) (c : NativeCall) : BridgeState :=
  { st with events := st.events ++ [BEvent.native c] }

/-- `sqlite3_busy_handler(jDb, jBusy)` (JNI binding): an unknown connection
reports `SQLITE_NOMEM`; registering the currently-registered object is a
no-op returning 0; otherwise the old handler (if any) is torn down with its
`xDestroy()`, the new object's `xCallback(int)` is resolved (failure:
`SQLITE_ERROR`, slot left unset), and the native busy handler is
(re)installed — or cleared when `jBusy` is null. -/
def sqlite3_busy_handler_jni (jvm : JavaWorld) (jDb jBusy : JRef)
    (st : BridgeState) : Int × BridgeState :=
  let ps := S3JniDb_for_db jDb 0 st
  if ps = 0 then (SQLITE_NOMEM, st)
  else if jBusy.obj ≠ 0 then
    if (st.dbRec ps).hooks.busyHandler.jObj.obj ≠ 0 ∧
        (st.dbRec ps).hooks.busyHandler.jObj.obj = jBusy.obj then
      (0, st)
    else
      let st1 := (S3JniHook_unref jvm (st.dbRec ps).hooks.busyHandler true st).2
      let g := mkRefVal jBusy st1
      let st2 := mkRefSt jBusy st1
      match jvm.method jBusy.obj "xCallback" with
      | some mid =>
        let st3 := updateHooks st2 ps
          { (st2.dbRec ps).hooks with busyHandler := ⟨g, mid⟩ }
        (0, logNative st3 (NativeCall.busyHandlerSet ((st3.dbRec ps).pDb)))
      | none =>
        let st3 := updateHooks st2 ps
          { (st2.dbRec ps).hooks with busyHandler := ⟨g, 0⟩ }
        let st4 := unRef g st3
        (SQLITE_ERROR, updateHooks st4 ps
          { (st4.dbRec ps).hooks with busyHandler := S3JniHook.empty })
  else
    let st1 := (S3JniHook_unref jvm (st.dbRec ps).hooks.busyHandler true st).2
    let st2 := updateHooks st1 ps
      { (st1.dbRec ps).hooks with busyHandler := S3JniHook.empty }
    (0, logNative st2 (NativeCall.busyHandlerClear ((st2.dbRec ps).pDb)))

/-- `sqlite3_busy_timeout(jDb, ms)` (JNI binding): when the connection's
record is found, any registered busy-handler callback is torn down (with
its `xDestroy()`) before `sqlite3_busy_timeout` is invoked natively; an
unknown connection reports `SQLITE_MISUSE` untouched. -/
def sqlite3_busy_timeout_jni (jvm : JavaWorld) (jDb : JRef) (ms : Int)
    (st : BridgeState) : Int × BridgeState :=
  let ps := S3JniDb_for_db jDb 0 st
  if ps ≠ 0 then
    let st1 := (S3JniHook_unref jvm (st.dbRec ps).hooks.busyHandler true st).2
    let st2 := updateHooks st1 ps
      { (st1.dbRec ps).hooks with busyHandler := S3JniHook.empty }
    (0, logNative st2 (NativeCall.busyTimeout ((st2.dbRec ps).pDb) ms))
  else (SQLITE_MISUSE, st)

/-- `s3jni_commit_rollback_hook(isCommit, jDb, jHook)`: returns the
previously registered callback object (null when unset).  Re-registering
the installed object is a no-op; null clears the slot and deregisters the
native hook; a new object has its callback method resolved (failure leaves
the previous registration intact) and replaces the previous registration,
whose reference is released only after the new one is installed. -/
def s3jni_commit_rollback_hook (jvm : JavaWorld) (isCommit : Bool)
    (jDb jHook : JRef) (st : BridgeState) : JRef × BridgeState :=
  let ps := S3JniDb_for_db jDb 0 st
  if ps = 0 then (JRef.null, st)
  else
    let pOld := (if isCommit then (st.dbRec ps).hooks.commit
                 else (st.dbRec ps).hooks.rollback).jObj
    if pOld.obj ≠ 0 ∧ jHook.obj ≠ 0 ∧ pOld.obj = jHook.obj then (pOld, st)
    else if jHook.obj = 0 then
      let loc := mkRefVal pOld st
      let st1 := mkRefSt pOld st
      let st2 := unRef pOld st1
      let st3 := updateHooks st2 ps
        (if isCommit then { (st2.dbRec ps).hooks with commit := S3JniHook.empty }
         else { (st2.dbRec ps).hooks with rollback := S3JniHook.empty })
      (loc, logNative st3
        (if isCommit then NativeCall.commitHookClear ((st3.dbRec ps).pDb)
         else NativeCall.rollbackHookClear ((st3.dbRec ps).pDb)))
    else
      match jvm.method jHook.obj
          (if isCommit then "xCommitHook" else "xRollbackHook") with
      | none =>
        (pOld, (s3jni_db_error ((st.dbRec ps).pDb) SQLITE_ERROR st).2)
      | some mid =>
        let g := mkRefVal jHook st
        let st1 := mkRefSt jHook st
        let st2 := updateHooks st1 ps
          (if isCommit then { (st1.dbRec ps).hooks with commit := ⟨g, mid⟩ }
           else { (st1.dbRec ps).hooks with rollback := ⟨g, mid⟩ })
        let st3 := logNative st2
          (if isCommit then NativeCall.commitHookSet ((st2.dbRec ps).pDb)
           else NativeCall.rollbackHookSet ((st2.dbRec ps).pDb))
        let loc := mkRefVal pOld st3
        let st4 := mkRefSt pOld st3
        (loc, unRef pOld st4)

/-- `s3jni_updatepre_hook(isPre, jDb, jHook)` (with
`SQLITE_ENABLE_PREUPDATE_HOOK`): same protocol as the commit/rollback
registration, on the `update`/`preUpdate` slots. -/
def s3jni_updatepre_hook (jvm : JavaWorld) (isPre : Bool) (jDb jHook : JRef)
    (st : BridgeState) : JRef × BridgeState :=
  let ps := S3JniDb_for_db jDb 0 st
  if ps = 0 then (JRef.null, st)
  else
    let pOld := (if isPre then (st.dbRec ps).hooks.preUpdate
                 else (st.dbRec ps).hooks.update).jObj
    if pOld.obj ≠ 0 ∧ jHook.obj ≠ 0 ∧ pOld.obj = jHook.obj then (pOld, st)
    else if jHook.obj = 0 then
      let loc := mkRefVal pOld st
      let st1 := mkRefSt pOld st
      let st2 := unRef pOld st1
      let st3 := updateHooks st2 ps
        (if isPre then { (st2.dbRec ps).hooks with preUpdate := S3JniHook.empty }
         else { (st2.dbRec ps).hooks with update := S3JniHook.empty })
      (loc, logNative st3
        (if isPre then NativeCall.preUpdateHookClear ((st3.dbRec ps).pDb)
         else NativeCall.updateHookClear ((st3.dbRec ps).pDb)))
    else
      match jvm.method jHook.obj
          (if isPre then "xPreUpdate" else "xUpdateHook") with
      | none =>
        (pOld, (s3jni_db_error ((st.dbRec ps).pDb) SQLITE_ERROR st).2)
      | some mid =>
        let g := mkRefVal jHook st
        let st1 := mkRefSt jHook st
        let st2 := updateHooks st1 ps
          (if isPre then { (st1.dbRec ps).hooks with preUpdate := ⟨g, mid⟩ }
           else { (st1.dbRec ps).hooks with update := ⟨g, mid⟩ })
        let st3 := logNative st2
          (if isPre then NativeCall.preUpdateHookSet ((st2.dbRec ps).pDb)
           else NativeCall.updateHookSet ((st2.dbRec ps).pDb))
        let loc := mkRefVal pOld st3
        let st4 := mkRefSt pOld st3
        (loc, unRef pOld st4)

/-- `sqlite3_trace_v2(jDb, traceMask, jTracer)` (JNI binding).  Note: this
entry point has no same-object check; re-registering the installed tracer
looks the method up again and overwrites the stored reference with a fresh
one (without releasing the previous reference) and re-invokes the native
registration. -/
def sqlite3_trace_v2_jni (jvm : JavaWorld) (jDb : JRef) (traceMask : Int)
    (jTracer : JRef) (st : BridgeState) : Int × BridgeState :=
  let ps := S3JniDb_for_db jDb 0 st
  if traceMask = 0 ∨ jTracer.obj = 0 then
    let st1 :=
      if ps ≠ 0 then
        let stu := (S3JniHook_unref jvm (st.dbRec ps).hooks.trace false st).2
        updateHooks stu ps
          { (stu.dbRec ps).hooks with trace := S3JniHook.empty }
      else st
    (0, logNative st1
      (NativeCall.traceClear (if ps ≠ 0 then (st1.dbRec ps).pDb else 0)))
  else if ps = 0 then (SQLITE_NOMEM, st)
  else
    match jvm.method jTracer.obj "xCallback" with
    | none =>
      let st1 := updateHooks st ps
        { (st.dbRec ps).hooks with
            trace := { (st.dbRec ps).hooks.trace with midCallback := 0 } }
      (SQLITE_ERROR, (s3jni_db_error ((st1.dbRec ps).pDb) SQLITE_ERROR st1).2)
    | some mid =>
      let st1 := updateHooks st ps
        { (st.dbRec ps).hooks with
            trace := ⟨mkRefVal jTracer st, mid⟩ }
      let st2 := mkRefSt jTracer st1
      (0, logNative st2 (NativeCall.traceSet ((st2.dbRec ps).pDb) traceMask))

/-- `sqlite3_progress_handler(jDb, n, jProgress)` (JNI binding).  Note:
this entry point has no same-object check either; re-registering the
installed handler releases the stored reference (without invoking any
teardown method) and stores a fresh one. -/
def sqlite3_progress_handler_jni (jvm : JavaWorld) (jDb : JRef) (n : Int)
    (jProgress : JRef) (st : BridgeState) : BridgeState :=
  let ps := S3JniDb_for_db jDb 0 st
  if n < 1 ∨ jProgress.obj = 0 then
    let st1 :=
      if ps ≠ 0 then
        let stu := unRef (st.dbRec ps).hooks.progress.jObj st
        updateHooks stu ps
          { (stu.dbRec ps).hooks with progress := S3JniHook.empty }
      else st
    logNative st1
      (NativeCall.progressClear (if ps ≠ 0 then (st1.dbRec ps).pDb else 0))
  else if ps = 0 then st
  else
    match jvm.method jProgress.obj "xCallback" with
    | none => (s3jni_db_error ((st.dbRec ps).pDb) SQLITE_ERROR st).2
    | some mid =>
      let st1 := unRef (st.dbRec ps).hooks.progress.jObj st
      let st2 := updateHooks st1 ps
        { (st1.dbRec ps).hooks with
            progress := ⟨mkRefVal jProgress st1, mid⟩ }
      let st3 := mkRefSt jProgress st2
      logNative st3 (NativeCall.progressSet ((st3.dbRec ps).pDb) n)

/-- `sqlite3_set_authorizer(jDb, jHook)` (JNI binding). -/
def sqlite3_set_authorizer_jni (jvm : JavaWorld) (jDb jHook : JRef)
    (st : BridgeState) : Int × BridgeState :=
  let ps := S3JniDb_for_db jDb 0 st
  if ps = 0 then (SQLITE_MISUSE, st)
  else if jHook.obj = 0 then
    let st1 := (S3JniHook_unref jvm (st.dbRec ps).hooks.auth false st).2
    let st2 := updateHooks st1 ps
      { (st1.dbRec ps).hooks with auth := S3JniHook.empty }
    (0, logNative st2 (NativeCall.authClear ((st2.dbRec ps).pDb)))
  else if (st.dbRec ps).hooks.auth.jObj.obj ≠ 0 ∧
      (st.dbRec ps).hooks.auth.jObj.obj = jHook.obj then
    (0, st)
  else
    let st1 := (S3JniHook_unref jvm (st.dbRec ps).hooks.auth false st).2
    let g := mkRefVal jHook st1
    let st2 := mkRefSt jHook st1
    match jvm.method jHook.obj "xAuth" with
    | none =>
      let st3 := updateHooks st2 ps
        { (st2.dbRec ps).hooks with auth := ⟨g, 0⟩ }
      let st4 := unRef g st3
      let st5 := updateHooks st4 ps
        { (st4.dbRec ps).hooks with auth := S3JniHook.empty }
      ((s3jni_db_error ((st5.dbRec ps).pDb) SQLITE_ERROR st5).1,
       (s3jni_db_error ((st5.dbRec ps).pDb) SQLITE_ERROR st5).2)
    | some mid =>
      let st3 := updateHooks st2 ps
        { (st2.dbRec ps).hooks with auth := ⟨g, mid⟩ }
      (0, logNative st3 (NativeCall.authSet ((st3.dbRec ps).pDb)))

/-- `sqlite3_collation_needed(jDb, jHook)` (JNI binding). -/
def sqlite3_collation_needed_jni (jvm : JavaWorld) (jDb jHook : JRef)
    (st : BridgeState) : Int × BridgeState :=
  let ps := S3JniDb_for_db jDb 0 st
  if ps = 0 then (SQLITE_MISUSE, st)
  else
    let pOld := (st.dbRec ps).hooks.collationNeeded.jObj
    if pOld.obj ≠ 0 ∧ jHook.obj ≠ 0 ∧ pOld.obj = jHook.obj then (0, st)
    else if jHook.obj = 0 then
      let st1 := unRef pOld st
      let st2 := updateHooks st1 ps
        { (st1.dbRec ps).hooks with collationNeeded := S3JniHook.empty }
      (0, logNative st2 (NativeCall.collationNeededClear ((st2.dbRec ps).pDb)))
    else
      match jvm.method jHook.obj "xCollationNeeded" with
      | none =>
        ((s3jni_db_error ((st.dbRec ps).pDb) SQLITE_MISUSE st).1,
         (s3jni_db_error ((st.dbRec ps).pDb) SQLITE_MISUSE st).2)
      | some mid =>
        let st1 := updateHooks st ps
          { (st.dbRec ps).hooks with
              collationNeeded := ⟨mkRefVal jHook st, mid⟩ }
        let st2 := mkRefSt jHook st1
        let st3 := unRef pOld st2
        (0, logNative st3 (NativeCall.collationNeededSet ((st3.dbRec ps).pDb)))

/-- C6 (amended): for the busy-handler, commit, rollback, update,
pre-update, authorizer and collation-needed slots, registering the object
already held by the slot succeeds and is a complete no-op: the state —
including the stored strong reference and method handle — is unchanged, no
reference is released and no teardown method is invoked.  (The trace and
progress slots lack this check: see the counterexample.) -/
theorem C6_same_object_noop (jvm : JavaWorld) (st : BridgeState)
    (jDb o : JRef) (ps : Nat)
    (hps : S3JniDb_for_db jDb 0 st = ps) (hps0 : ps ≠ 0) (ho : o.obj ≠ 0) :
    ((st.dbRec ps).hooks.busyHandler.jObj.obj = o.obj →
      sqlite3_busy_handler_jni jvm jDb o st = (0, st)) ∧
    ((st.dbRec ps).hooks.commit.jObj.obj = o.obj →
      s3jni_commit_rollback_hook jvm true jDb o st =
        ((st.dbRec ps).hooks.commit.jObj, st)) ∧
    ((st.dbRec ps).hooks.rollback.jObj.obj = o.obj →
      s3jni_commit_rollback_hook jvm false jDb o st =
        ((st.dbRec ps).hooks.rollback.jObj, st)) ∧
    ((st.dbRec ps).hooks.update.jObj.obj = o.obj →
      s3jni_updatepre_hook jvm false jDb o st =
        ((st.dbRec ps).hooks.update.jObj, st)) ∧
    ((st.dbRec ps).hooks.preUpdate.jObj.obj = o.obj →
      s3jni_updatepre_hook jvm true jDb o st =
        ((st.dbRec ps).hooks.preUpdate.jObj, st)) ∧
    ((st.dbRec ps).hooks.auth.jObj.obj = o.obj →
      sqlite3_set_authorizer_jni jvm jDb o st = (0, st)) ∧
    ((st.dbRec ps).hooks.collationNeeded.jObj.obj = o.obj →
      sqlite3_collation_needed_jni jvm jDb o st = (0, st)) := by
  refine ⟨?_, ?_, ?_, ?_, ?_, ?_, ?_⟩
  · intro hco
    unfold sqlite3_busy_handler_jni
    simp only [hps, if_neg hps0, if_pos ho,
      if_pos (And.intro (show (st.dbRec ps).hooks.busyHandler.jObj.obj ≠ 0 by
        rw [hco]; exact ho) hco)]
  · intro hco
    unfold s3jni_commit_rollback_hook
    simp only [hps, if_neg hps0, eq_self_iff_true, if_true]
    rw [if_pos (And.intro (show (st.dbRec ps).hooks.commit.jObj.obj ≠ 0 by
      rw [hco]; exact ho) (And.intro ho hco))]
  · intro hco
    unfold s3jni_commit_rollback_hook
    simp only [hps, if_neg hps0, Bool.false_eq_true, if_false]
    rw [if_pos (And.intro (show (st.dbRec ps).hooks.rollback.jObj.obj ≠ 0 by
      rw [hco]; exact ho) (And.intro ho hco))]
  · intro hco
    unfold s3jni_updatepre_hook
    simp only [hps, if_neg hps0, Bool.false_eq_true, if_false]
    rw [if_pos (And.intro (show (st.dbRec ps).hooks.update.jObj.obj ≠ 0 by
      rw [hco]; exact ho) (And.intro ho hco))]
  · intro hco
    unfold s3jni_updatepre_hook
    simp only [hps, if_neg hps0, eq_self_iff_true, if_true]
    rw [if_pos (And.intro (show (st.dbRec ps).hooks.preUpdate.jObj.obj ≠ 0 by
      rw [hco]; exact ho) (And.intro ho hco))]
  · intro hco
    unfold sqlite3_set_authorizer_jni
    simp only [hps, if_neg hps0, if_neg (show ¬o.obj = 0 from ho)]
    rw [if_pos (And.intro (show (st.dbRec ps).hooks.auth.jObj.obj ≠ 0 by
      rw [hco]; exact ho) hco)]
  · intro hco
    unfold sqlite3_collation_needed_jni
    simp only [hps, if_neg hps0]
    rw [if_pos (And.intro (show (st.dbRec ps).hooks.collationNeeded.jObj.obj ≠ 0 by
      rw [hco]; exact ho) (And.intro ho hco))]

/-- A connection record (id 1, native handle 100, wrapper object 40) with
every hook slot holding callback object 60 under distinct reference
tokens. -/
def exHookState : BridgeState :=
  { BridgeState.init with
      dbRec := Function.update (fun _ => S3JniDb.empty) 1
        { pDb := 100, jDb := ⟨5, 40⟩, zMainDbName := none,
          hooks :=
            { busyHandler := ⟨⟨11, 60⟩, 2⟩
              collation := S3JniHook.empty
              collationNeeded := ⟨⟨12, 60⟩, 2⟩
              commit := ⟨⟨13, 60⟩, 2⟩
              progress := ⟨⟨14, 60⟩, 2⟩
              rollback := ⟨⟨15, 60⟩, 2⟩
              trace := ⟨⟨16, 60⟩, 2⟩
              update := ⟨⟨17, 60⟩, 2⟩
              auth := ⟨⟨18, 60⟩, 2⟩
              preUpdate := ⟨⟨19, 60⟩, 2⟩ } }
      dbUsed := [1]
      dbNextId := 2
      nativePtr := Function.update (Function.update (fun _ => 0) 40 100) 41 999
      nextTok := 30 }

/-- Witness for C6 (amended): re-registering object 60 on each guarded slot
of `exHookState` is a complete no-op. -/
theorem C6_same_object_noop_witness :
    sqlite3_busy_handler_jni exJvm ⟨9, 40⟩ ⟨9, 60⟩ exHookState
        = (0, exHookState) ∧
    s3jni_commit_rollback_hook exJvm true ⟨9, 40⟩ ⟨9, 60⟩ exHookState
        = (⟨13, 60⟩, exHookState) ∧
    s3jni_commit_rollback_hook exJvm false ⟨9, 40⟩ ⟨9, 60⟩ exHookState
        = (⟨15, 60⟩, exHookState) ∧
    s3jni_updatepre_hook exJvm false ⟨9, 40⟩ ⟨9, 60⟩ exHookState
        = (⟨17, 60⟩, exHookState) ∧
    s3jni_updatepre_hook exJvm true ⟨9, 40⟩ ⟨9, 60⟩ exHookState
        = (⟨19, 60⟩, exHookState) ∧
    sqlite3_set_authorizer_jni exJvm ⟨9, 40⟩ ⟨9, 60⟩ exHookState
        = (0, exHookState) ∧
    sqlite3_collation_needed_jni exJvm ⟨9, 40⟩ ⟨9, 60⟩ exHookState
        = (0, exHookState) := by
  have h := C6_same_object_noop exJvm exHookState ⟨9, 40⟩ ⟨9, 60⟩ 1
    (by decide) (by decide) (by decide)
  exact ⟨h.1 (by decide), h.2.1 (by decide), h.2.2.1 (by decide),
    h.2.2.2.1 (by decide), h.2.2.2.2.1 (by decide),
    h.2.2.2.2.2.1 (by decide), h.2.2.2.2.2.2 (by decide)⟩

/-- Counterexample to C6 as stated: the progress and trace slots are *not*
idempotent under same-object re-registration.  Re-registering object 60 as
the progress handler releases the previously stored reference (token 14)
and stores a fresh one (token 30), then re-invokes the native registration;
re-registering it as the tracer overwrites the stored reference (token 16
becomes 30) without releasing the old one and re-invokes the native
registration. -/
theorem C6_progress_trace_counterexample :
    (sqlite3_progress_handler_jni exJvm ⟨9, 40⟩ 10 ⟨9, 60⟩ exHookState).events
        = [BEvent.releaseRef 14,
           BEvent.native (NativeCall.progressSet 100 10)] ∧
    ((sqlite3_progress_handler_jni exJvm ⟨9, 40⟩ 10 ⟨9, 60⟩
        exHookState).dbRec 1).hooks.progress.jObj = ⟨30, 60⟩ ∧
    (⟨30, 60⟩ : JRef) ≠ ⟨14, 60⟩ ∧
    ((sqlite3_trace_v2_jni exJvm ⟨9, 40⟩ 4 ⟨9, 60⟩
        exHookState).2.dbRec 1).hooks.trace.jObj = ⟨30, 60⟩ ∧
    (⟨30, 60⟩ : JRef) ≠ ⟨16, 60⟩ ∧
    (sqlite3_trace_v2_jni exJvm ⟨9, 40⟩ 4 ⟨9, 60⟩ exHookState).2.events
        = [BEvent.native (NativeCall.traceSet 100 4)] := by
  decide

/-- Closed form of `S3JniHook_unref` with teardown on a populated slot whose
callback has an `xDestroy()` method. -/
theorem hook_unref_eq (jvm : JavaWorld) (s : S3JniHook) (st : BridgeState)
    (ho : s.jObj.obj ≠ 0) {dmid : Nat}
    (hxd : jvm.method s.jObj.obj "xDestroy" = some dmid) :
    (S3JniHook_unref jvm s true st).2 =
      { st with
          nDestroy := st.nDestroy + 1
          events := st.events ++
            [BEvent.destroy s.jObj.obj, BEvent.releaseRef s.jObj.tok] } := by
  unfold S3JniHook_unref s3jni_call_xDestroy unRef
  rw [if_pos (And.intro rfl ho), if_neg ho, hxd]
  dsimp only
  rw [if_neg ho]
  simp [List.append_assoc]

/-- C9: `sqlite3_busy_timeout` on a connection with a known record tears
down the registered busy-handler callback — invoking its `xDestroy()` and
releasing its strong reference, in that order, before the native
busy-timeout call — leaving the busy-handler slot unset while every other
hook slot, the record's other fields, all other records, the registry lists
and the rest of the bridge state are unchanged; on a connection with no
record it returns `SQLITE_MISUSE` and changes nothing. -/
theorem C9_busy_timeout_frame (jvm : JavaWorld) (st : BridgeState)
    (jDb jDb2 : JRef) (ms : Int) (ps dmid : Nat)
    (hps : S3JniDb_for_db jDb 0 st = ps) (hps0 : ps ≠ 0)
    (ho : (st.dbRec ps).hooks.busyHandler.jObj.obj ≠ 0)
    (hxd : jvm.method (st.dbRec ps).hooks.busyHandler.jObj.obj "xDestroy"
        = some dmid)
    (hmiss : S3JniDb_for_db jDb2 0 st = 0) :
    (sqlite3_busy_timeout_jni jvm jDb ms st).1 = 0 ∧
    (sqlite3_busy_timeout_jni jvm jDb ms st).2.events =
      st.events ++
        [BEvent.destroy (st.dbRec ps).hooks.busyHandler.jObj.obj,
         BEvent.releaseRef (st.dbRec ps).hooks.busyHandler.jObj.tok,
         BEvent.native (NativeCall.busyTimeout ((st.dbRec ps).pDb) ms)] ∧
    (sqlite3_busy_timeout_jni jvm jDb ms st).2.dbRec ps =
      { st.dbRec ps with
          hooks := { (st.dbRec ps).hooks with
                       busyHandler := S3JniHook.empty } } ∧
    (∀ j, j ≠ ps →
      (sqlite3_busy_timeout_jni jvm jDb ms st).2.dbRec j = st.dbRec j) ∧
    (sqlite3_busy_timeout_jni jvm jDb ms st).2.dbUsed = st.dbUsed ∧
    (sqlite3_busy_timeout_jni jvm jDb ms st).2.dbFree = st.dbFree ∧
    (sqlite3_busy_timeout_jni jvm jDb ms st).2.envRow = st.envRow ∧
    (sqlite3_busy_timeout_jni jvm jDb ms st).2.nativePtr = st.nativePtr ∧
    (sqlite3_busy_timeout_jni jvm jDb ms st).2.dbErrCode = st.dbErrCode ∧
    sqlite3_busy_timeout_jni jvm jDb2 ms st = (SQLITE_MISUSE, st) := by
  have heq : sqlite3_busy_timeout_jni jvm jDb ms st =
      (0, { st with
              nDestroy := st.nDestroy + 1
              dbRec := Function.update st.dbRec ps
                { st.dbRec ps with
                    hooks := { (st.dbRec ps).hooks with
                                 busyHandler := S3JniHook.empty } }
              events := st.events ++
                [BEvent.destroy (st.dbRec ps).hooks.busyHandler.jObj.obj,
                 BEvent.releaseRef (st.dbRec ps).hooks.busyHandler.jObj.tok,
                 BEvent.native
                   (NativeCall.busyTimeout ((st.dbRec ps).pDb) ms)] }) := by
    unfold sqlite3_busy_timeout_jni
    simp only [hps, if_pos hps0]
    rw [hook_unref_eq jvm _ st ho hxd]
    unfold updateHooks logNative
    dsimp only
    simp [List.append_assoc, Function.update_same]
  have hmiseq : sqlite3_busy_timeout_jni jvm jDb2 ms st =
      (SQLITE_MISUSE, st) := by
    unfold sqlite3_busy_timeout_jni
    simp only [hmiss]
    rw [if_neg (by simp)]
  rw [heq]
  refine ⟨rfl, by simp, ?_, ?_, rfl, rfl, rfl, rfl, rfl, hmiseq⟩
  · dsimp only
    rw [Function.update_same]
  · intro j hj
    dsimp only
    rw [Function.update_noteq hj]

/-- Witness for C9 at `exHookState` (record 1 known via wrapper 40; object
41 resolves to no record). -/
theorem C9_busy_timeout_frame_witness :
    (sqlite3_busy_timeout_jni exJvm ⟨9, 40⟩ 250 exHookState).1 = 0 ∧
    (sqlite3_busy_timeout_jni exJvm ⟨9, 40⟩ 250 exHookState).2.events =
      exHookState.events ++
        [BEvent.destroy (exHookState.dbRec 1).hooks.busyHandler.jObj.obj,
         BEvent.releaseRef (exHookState.dbRec 1).hooks.busyHandler.jObj.tok,
         BEvent.native
           (NativeCall.busyTimeout ((exHookState.dbRec 1).pDb) 250)] ∧
    (sqlite3_busy_timeout_jni exJvm ⟨9, 40⟩ 250 exHookState).2.dbRec 1 =
      { exHookState.dbRec 1 with
          hooks := { (exHookState.dbRec 1).hooks with
                       busyHandler := S3JniHook.empty } } ∧
    (∀ j, j ≠ 1 →
      (sqlite3_busy_timeout_jni exJvm ⟨9, 40⟩ 250 exHookState).2.dbRec j =
        exHookState.dbRec j) ∧
    (sqlite3_busy_timeout_jni exJvm ⟨9, 40⟩ 250 exHookState).2.dbUsed =
      exHookState.dbUsed ∧
    (sqlite3_busy_timeout_jni exJvm ⟨9, 40⟩ 250 exHookState).2.dbFree =
      exHookState.dbFree ∧
    (sqlite3_busy_timeout_jni exJvm ⟨9, 40⟩ 250 exHookState).2.envRow =
      exHookState.envRow ∧
    (sqlite3_busy_timeout_jni exJvm ⟨9, 40⟩ 250 exHookState).2.nativePtr =
      exHookState.nativePtr ∧
    (sqlite3_busy_timeout_jni exJvm ⟨9, 40⟩ 250 exHookState).2.dbErrCode =
      exHookState.dbErrCode ∧
    sqlite3_busy_timeout_jni exJvm ⟨7, 41⟩ 250 exHookState =
      (SQLITE_MISUSE, exHookState) :=
  C9_busy_timeout_frame exJvm exHookState ⟨9, 40⟩ ⟨7, 41⟩ 250 1 11
    (by decide) (by decide) (by decide) (by decide) (by decide)

/-- The commit/rollback registration returns the previously registered
object in every branch (once the record is known). -/
theorem crh_returns_previous (jvm : JavaWorld) (st : BridgeState)
    (jDb jHook : JRef) (ps : Nat) (b : Bool)
    (hps : S3JniDb_for_db jDb 0 st = ps) (hps0 : ps ≠ 0) :
    (s3jni_commit_rollback_hook jvm b jDb jHook st).1.obj =
      (if b = true then (st.dbRec ps).hooks.commit
       else (st.dbRec ps).hooks.rollback).jObj.obj := by
  unfold s3jni_commit_rollback_hook
  simp only [hps, if_neg hps0]
  by_cases h1 : ((if b = true then (st.dbRec ps).hooks.commit
      else (st.dbRec ps).hooks.rollback).jObj).obj ≠ 0 ∧ jHook.obj ≠ 0 ∧
      ((if b = true then (st.dbRec ps).hooks.commit
      else (st.dbRec ps).hooks.rollback).jObj).obj = jHook.obj
  · rw [if_pos h1]
  · rw [if_neg h1]
    by_cases h2 : jHook.obj = 0
    · rw [if_pos h2]
      dsimp only
      rw [mkRefVal_obj]
    · rw [if_neg h2]
      cases hm : jvm.method jHook.obj
          (if b = true then "xCommitHook" else "xRollbackHook") with
      | none => rfl
      | some mid =>
        dsimp only
        rw [mkRefVal_obj]

/-- The update/pre-update registration returns the previously registered
object in every branch (once the record is known). -/
theorem updatepre_returns_previous (jvm : JavaWorld) (st : BridgeState)
    (jDb jHook : JRef) (ps : Nat) (b : Bool)
    (hps : S3JniDb_for_db jDb 0 st = ps) (hps0 : ps ≠ 0) :
    (s3jni_updatepre_hook jvm b jDb jHook st).1.obj =
      (if b = true then (st.dbRec ps).hooks.preUpdate
       else (st.dbRec ps).hooks.update).jObj.obj := by
  unfold s3jni_updatepre_hook
  simp only [hps, if_neg hps0]
  by_cases h1 : ((if b = true then (st.dbRec ps).hooks.preUpdate
      else (st.dbRec ps).hooks.update).jObj).obj ≠ 0 ∧ jHook.obj ≠ 0 ∧
      ((if b = true then (st.dbRec ps).hooks.preUpdate
      else (st.dbRec ps).hooks.update).jObj).obj = jHook.obj
  · rw [if_pos h1]
  · rw [if_neg h1]
    by_cases h2 : jHook.obj = 0
    · rw [if_pos h2]
      dsimp only
      rw [mkRefVal_obj]
    · rw [if_neg h2]
      cases hm : jvm.method jHook.obj
          (if b = true then "xPreUpdate" else "xUpdateHook") with
      | none => rfl
      | some mid =>
        dsimp only
        rw [mkRefVal_obj]

/-- Re-registering the installed object on the commit/rollback slot is a
no-op returning that object. -/
theorem crh_same_noop (jvm : JavaWorld) (st : BridgeState) (jDb o : JRef)
    (ps : Nat) (b : Bool)
    (hps : S3JniDb_for_db jDb 0 st = ps) (hps0 : ps ≠ 0) (ho : o.obj ≠ 0)
    (hco : (if b = true then (st.dbRec ps).hooks.commit
        else (st.dbRec ps).hooks.rollback).jObj.obj = o.obj) :
    s3jni_commit_rollback_hook jvm b jDb o st =
      ((if b = true then (st.dbRec ps).hooks.commit
        else (st.dbRec ps).hooks.rollback).jObj, st) := by
  unfold s3jni_commit_rollback_hook
  simp only [hps, if_neg hps0]
  rw [if_pos (And.intro (by rw [hco]; exact ho) (And.intro ho hco))]

/-- Re-registering the installed object on the update/pre-update slot is a
no-op returning that object. -/
theorem updatepre_same_noop (jvm : JavaWorld) (st : BridgeState) (jDb o : JRef)
    (ps : Nat) (b : Bool)
    (hps : S3JniDb_for_db jDb 0 st = ps) (hps0 : ps ≠ 0) (ho : o.obj ≠ 0)
    (hco : (if b = true then (st.dbRec ps).hooks.preUpdate
        else (st.dbRec ps).hooks.update).jObj.obj = o.obj) :
    s3jni_updatepre_hook jvm b jDb o st =
      ((if b = true then (st.dbRec ps).hooks.preUpdate
        else (st.dbRec ps).hooks.update).jObj, st) := by
  unfold s3jni_updatepre_hook
  simp only [hps, if_neg hps0]
  rw [if_pos (And.intro (by rw [hco]; exact ho) (And.intro ho hco))]

/-- C10: the commit-hook, rollback-hook, update-hook and pre-update-hook
registration calls on a connection with a known record return the
previously registered callback object for the targeted slot (the null
object when the slot was unset) — when installing a new callback, when
deregistering with null, and when the method lookup fails alike — and
re-registering the object already installed returns that very object and
changes nothing. -/
theorem C10_hook_registration_returns_previous (jvm : JavaWorld)
    (st : BridgeState) (jDb jHook : JRef) (ps : Nat)
    (hps : S3JniDb_for_db jDb 0 st = ps) (hps0 : ps ≠ 0) :
    (s3jni_commit_rollback_hook jvm true jDb jHook st).1.obj =
      (st.dbRec ps).hooks.commit.jObj.obj ∧
    (s3jni_commit_rollback_hook jvm false jDb jHook st).1.obj =
      (st.dbRec ps).hooks.rollback.jObj.obj ∧
    (s3jni_updatepre_hook jvm false jDb jHook st).1.obj =
      (st.dbRec ps).hooks.update.jObj.obj ∧
    (s3jni_updatepre_hook jvm true jDb jHook st).1.obj =
      (st.dbRec ps).hooks.preUpdate.jObj.obj ∧
    (jHook.obj ≠ 0 → (st.dbRec ps).hooks.commit.jObj.obj = jHook.obj →
      s3jni_commit_rollback_hook jvm true jDb jHook st =
        ((st.dbRec ps).hooks.commit.jObj, st)) ∧
    (jHook.obj ≠ 0 → (st.dbRec ps).hooks.rollback.jObj.obj = jHook.obj →
      s3jni_commit_rollback_hook jvm false jDb jHook st =
        ((st.dbRec ps).hooks.rollback.jObj, st)) ∧
    (jHook.obj ≠ 0 → (st.dbRec ps).hooks.update.jObj.obj = jHook.obj →
      s3jni_updatepre_hook jvm false jDb jHook st =
        ((st.dbRec ps).hooks.update.jObj, st)) ∧
    (jHook.obj ≠ 0 → (st.dbRec ps).hooks.preUpdate.jObj.obj = jHook.obj →
      s3jni_updatepre_hook jvm true jDb jHook st =
        ((st.dbRec ps).hooks.preUpdate.jObj, st)) := by
  refine ⟨?_, ?_, ?_, ?_, ?_, ?_, ?_, ?_⟩
  · simpa using crh_returns_previous jvm st jDb jHook ps true hps hps0
  · simpa [Bool.false_eq_true] using
      crh_returns_previous jvm st jDb jHook ps false hps hps0
  · simpa [Bool.false_eq_true] using
      updatepre_returns_previous jvm st jDb jHook ps false hps hps0
  · simpa using updatepre_returns_previous jvm st jDb jHook ps true hps hps0
  · intro hh hco
    simpa using crh_same_noop jvm st jDb jHook ps true hps hps0 hh
      (by simpa using hco)
  · intro hh hco
    simpa [Bool.false_eq_true] using
      crh_same_noop jvm st jDb jHook ps false hps hps0 hh
        (by simpa [Bool.false_eq_true] using hco)
  · intro hh hco
    simpa [Bool.false_eq_true] using
      updatepre_same_noop jvm st jDb jHook ps false hps hps0 hh
        (by simpa [Bool.false_eq_true] using hco)
  · intro hh hco
    simpa using updatepre_same_noop jvm st jDb jHook ps true hps hps0 hh
      (by simpa using hco)

/-- Witness for C10 at `exHookState`: every slot holds object 60, and each
registration call with object 60 returns it and changes nothing. -/
theorem C10_hook_registration_witness :
    (s3jni_commit_rollback_hook exJvm true ⟨9, 40⟩ ⟨9, 60⟩ exHookState).1.obj
        = (exHookState.dbRec 1).hooks.commit.jObj.obj ∧
    (s3jni_commit_rollback_hook exJvm false ⟨9, 40⟩ ⟨9, 60⟩ exHookState).1.obj
        = (exHookState.dbRec 1).hooks.rollback.jObj.obj ∧
    (s3jni_updatepre_hook exJvm false ⟨9, 40⟩ ⟨9, 60⟩ exHookState).1.obj
        = (exHookState.dbRec 1).hooks.update.jObj.obj ∧
    (s3jni_updatepre_hook exJvm true ⟨9, 40⟩ ⟨9, 60⟩ exHookState).1.obj
        = (exHookState.dbRec 1).hooks.preUpdate.jObj.obj ∧
    s3jni_commit_rollback_hook exJvm true ⟨9, 40⟩ ⟨9, 60⟩ exHookState =
      ((exHookState.dbRec 1).hooks.commit.jObj, exHookState) ∧
    s3jni_commit_rollback_hook exJvm false ⟨9, 40⟩ ⟨9, 60⟩ exHookState =
      ((exHookState.dbRec 1).hooks.rollback.jObj, exHookState) ∧
    s3jni_updatepre_hook exJvm false ⟨9, 40⟩ ⟨9, 60⟩ exHookState =
      ((exHookState.dbRec 1).hooks.update.jObj, exHookState) ∧
    s3jni_updatepre_hook exJvm true ⟨9, 40⟩ ⟨9, 60⟩ exHookState =
      ((exHookState.dbRec 1).hooks.preUpdate.jObj, exHookState) := by
  have h := C10_hook_registration_returns_previous exJvm exHookState
    ⟨9, 40⟩ ⟨9, 60⟩ 1 (by decide) (by decide)
  exact ⟨h.1, h.2.1, h.2.2.1, h.2.2.2.1,
    h.2.2.2.2.1 (by decide) (by decide),
    h.2.2.2.2.2.1 (by decide) (by decide),
    h.2.2.2.2.2.2.1 (by decide) (by decide),
    h.2.2.2.2.2.2.2 (by decide) (by decide)⟩

/-! ## The collation comparison proxy (claim C8) -/

/-- `CollationState_xCompare(pArg, nLhs, lhs, nRhs, rhs)`: build the two
byte arrays (an allocation failure sets the connection's error to
`SQLITE_NOMEM` and yields 0), invoke the managed `xCompare` callback, then
`EXCEPTION_IGNORE` (clear any pending exception) and return the call's
result.  A throwing callee yields 0 from `CallIntMethod` (see the module
conventions), so a throwing comparator yields 0. -/
def CollationState_xCompare (jvm : JavaWorld) (ps : Nat) (lhs rhs : List Int)
    (allocOk : Bool) (st : BridgeState) : Int × BridgeState :=
  if allocOk = false then
    (0, (s3jni_db_error ((st.dbRec ps).pDb) SQLITE_NOMEM st).2)
  else
    let o := (st.dbRec ps).hooks.collation.jObj.obj
    let threw := jvm.collThrows o lhs rhs
    let rc : Int := if threw then 0 else jvm.collResult o lhs rhs
    let st1 := { st with pendingEx := threw }
    let st2 := if st1.pendingEx then { st1 with pendingEx := false } else st1
    (rc, st2)

/-- C8: when the managed `xCompare` callback throws, the collation
comparison proxy clears the pending exception and returns 0 ("equal") to
the native engine, without touching the connection's error state (the
comparator contract has no error channel). -/
theorem C8_collation_xCompare_throw (jvm : JavaWorld) (st : BridgeState)
    (ps : Nat) (lhs rhs : List Int)
    (hthrew : jvm.collThrows ((st.dbRec ps).hooks.collation.jObj.obj)
        lhs rhs = true) :
    (CollationState_xCompare jvm ps lhs rhs true st).1 = 0 ∧
    (CollationState_xCompare jvm ps lhs rhs true st).2.pendingEx = false ∧
    (CollationState_xCompare jvm ps lhs rhs true st).2.dbErrCode
        = st.dbErrCode ∧
    (CollationState_xCompare jvm ps lhs rhs true st).2.events = st.events := by
  unfold CollationState_xCompare
  rw [if_neg (by simp)]
  simp only [hthrew]
  simp

/-- A `JavaWorld` whose collation comparators always throw (after
nominally computing 5). -/
def exJvmThrow : JavaWorld :=
  { exJvm with
      collThrows := fun _ _ _ => true
      collResult := fun _ _ _ => 5 }

/-- Witness for C8: a throwing comparator on `exHookState`'s connection
yields 0 with the exception cleared and the error state untouched. -/
theorem C8_collation_xCompare_throw_witness :
    (CollationState_xCompare exJvmThrow 1 [1] [2] true exHookState).1 = 0 ∧
    (CollationState_xCompare exJvmThrow 1 [1] [2] true
        exHookState).2.pendingEx = false ∧
    (CollationState_xCompare exJvmThrow 1 [1] [2] true
        exHookState).2.dbErrCode = exHookState.dbErrCode ∧
    (CollationState_xCompare exJvmThrow 1 [1] [2] true
        exHookState).2.events = exHookState.events :=
  C8_collation_xCompare_throw exJvmThrow exHookState 1 [1] [2] (by decide)

/-! ## UDF classification and registration (claim C4) -/

/-- `struct S3JniUdf`: the functor reference, its classification and the
method ids found on it (`none` = the class lacks that method). -/
structure S3JniUdf where
  jObj : JRef
  type : UDFType
  jmidxFunc : Option Nat
  jmidxStep : Option Nat
  jmidxFinal : Option Nat
  jmidxValue : Option Nat
  jmidxInverse : Option Nat
deriving DecidableEq, Repr

/-- `S3JniUdf_alloc(env, jObj)`: take a global reference to the functor,
look up the five candidate methods (clearing the exception after each
missed lookup), and classify: `xFunc` present ⇒ SCALAR; else `xStep` and
`xFinal` present ⇒ WINDOW when `xValue` is also present, else AGGREGATE;
else UNKNOWN. -/
def S3JniUdf_alloc (jvm : JavaWorld) (jObj : JRef) (st : BridgeState) :
    S3JniUdf × BridgeState :=
  let g := mkRefVal jObj st
  let st1 := mkRefSt jObj st
  let f := jvm.method jObj.obj "xFunc"
  let sp := jvm.method jObj.obj "xStep"
  let fin := jvm.method jObj.obj "xFinal"
  let v := jvm.method jObj.obj "xValue"
  let inv := jvm.method jObj.obj "xInverse"
  let ty := if f.isSome then UDFType.scalar
            else if sp.isSome ∧ fin.isSome then
              (if v.isSome then UDFType.window else UDFType.aggregate)
            else UDFType.unknown
  (⟨g, ty, f, sp, fin, v, inv⟩, st1)

/-- `encodingTypeIsValid(eTextRep)`. -/
def encodingTypeIsValid (e : Int) : Bool :=
  e == SQLITE_UTF8 || e == SQLITE_UTF16 || e == SQLITE_UTF16LE ||
    e == SQLITE_UTF16BE

/-- Whether an event is a native UDF registration. -/
def isCreateFunEvent : BEvent → Bool
  | BEvent.native (NativeCall.createFunction _ _) => true
  | _ => false

/-- `sqlite3_create_function(jDb, jFuncName, nArg, eTextRep, jFunctor)`
(JNI binding): an invalid encoding reports `SQLITE_FORMAT`; an UNKNOWN
classification reports `SQLITE_MISUSE` and frees the functor state without
registering anything; a failed name conversion reports `SQLITE_NOMEM`
likewise; otherwise the function is registered natively
(`sqlite3_create_window_function` for WINDOW, else
`sqlite3_create_function_v2`). -/
def sqlite3_create_function_jni (jvm : JavaWorld) (jDb : JRef)
    (nArg eTextRep : Int) (jFunctor : JRef) (nameOk : Bool)
    (st : BridgeState) : Int × BridgeState :=
  let pDb := st.nativePtr jDb.obj
  if encodingTypeIsValid eTextRep = false then
    (SQLITE_FORMAT, (s3jni_db_error pDb SQLITE_FORMAT st).2)
  else
    let s := (S3JniUdf_alloc jvm jFunctor st).1
    let st1 := (S3JniUdf_alloc jvm jFunctor st).2
    if s.type = UDFType.unknown then
      let st2 := (s3jni_db_error pDb SQLITE_MISUSE st1).2
      let st3 := s3jni_call_xDestroy jvm s.jObj st2
      let st4 := unRef s.jObj st3
      (SQLITE_MISUSE, st4)
    else if nameOk = false then
      let st2 := s3jni_call_xDestroy jvm s.jObj st1
      let st3 := unRef s.jObj st2
      (SQLITE_NOMEM, st3)
    else
      (0, logNative st1 (NativeCall.createFunction pDb s.type))

@[simp] theorem db_error_events (db : Nat) (e : Int) (st : BridgeState) :
    ((s3jni_db_error db e st).2).events = st.events := by
  unfold s3jni_db_error; split <;> rfl

theorem call_xDestroy_createFun_count (jvm : JavaWorld) (v : JRef)
    (st : BridgeState) :
    ((s3jni_call_xDestroy jvm v st).events).countP isCreateFunEvent =
      st.events.countP isCreateFunEvent := by
  unfold s3jni_call_xDestroy
  split
  · rfl
  · split
    · simp [List.countP_append, isCreateFunEvent]
    · rfl

theorem unRef_createFun_count (v : JRef) (st : BridgeState) :
    ((unRef v st).events).countP isCreateFunEvent =
      st.events.countP isCreateFunEvent := by
  unfold unRef
  split
  · rfl
  · simp [List.countP_append, isCreateFunEvent]

/-- C4: a functor exposing `xFunc` classifies SCALAR; one exposing `xStep`
and `xFinal` but not `xFunc` classifies AGGREGATE, upgraded to WINDOW when
it additionally exposes `xValue`; one exposing none of these combinations
classifies UNKNOWN, and its registration fails with `SQLITE_MISUSE` without
registering any native function. -/
theorem C4_udf_classification (jvm : JavaWorld) (st : BridgeState)
    (jDb jFunctor : JRef) (nArg eTextRep : Int) (nameOk : Bool)
    (henc : encodingTypeIsValid eTextRep = true) :
    ((jvm.method jFunctor.obj "xFunc").isSome = true →
      ((S3JniUdf_alloc jvm jFunctor st).1).type = UDFType.scalar) ∧
    ((jvm.method jFunctor.obj "xFunc").isSome = false →
      (jvm.method jFunctor.obj "xStep").isSome = true →
      (jvm.method jFunctor.obj "xFinal").isSome = true →
      (jvm.method jFunctor.obj "xValue").isSome = false →
      ((S3JniUdf_alloc jvm jFunctor st).1).type = UDFType.aggregate) ∧
    ((jvm.method jFunctor.obj "xFunc").isSome = false →
      (jvm.method jFunctor.obj "xStep").isSome = true →
      (jvm.method jFunctor.obj "xFinal").isSome = true →
      (jvm.method jFunctor.obj "xValue").isSome = true →
      ((S3JniUdf_alloc jvm jFunctor st).1).type = UDFType.window) ∧
    ((jvm.method jFunctor.obj "xFunc").isSome = false →
      ¬((jvm.method jFunctor.obj "xStep").isSome = true ∧
        (jvm.method jFunctor.obj "xFinal").isSome = true) →
      ((S3JniUdf_alloc jvm jFunctor st).1).type = UDFType.unknown ∧
      (sqlite3_create_function_jni jvm jDb nArg eTextRep jFunctor nameOk
          st).1 = SQLITE_MISUSE ∧
      ((sqlite3_create_function_jni jvm jDb nArg eTextRep jFunctor nameOk
          st).2.events).countP isCreateFunEvent =
        st.events.countP isCreateFunEvent) := by
  refine ⟨?_, ?_, ?_, ?_⟩
  · intro hf
    unfold S3JniUdf_alloc
    simp [hf]
  · intro hf hs hfin hv
    unfold S3JniUdf_alloc
    simp [hf, hs, hfin, hv]
  · intro hf hs hfin hv
    unfold S3JniUdf_alloc
    simp [hf, hs, hfin, hv]
  · intro hf hsf
    have hty : ((S3JniUdf_alloc jvm jFunctor st).1).type = UDFType.unknown := by
      unfold S3JniUdf_alloc
      simp only [hf, Bool.false_eq_true, if_false]
      rw [if_neg hsf]
    refine ⟨hty, ?_, ?_⟩
    · unfold sqlite3_create_function_jni
      rw [if_neg (by rw [henc]; simp)]
      dsimp only
      rw [if_pos hty]
    · unfold sqlite3_create_function_jni
      rw [if_neg (by rw [henc]; simp)]
      dsimp only
      rw [if_pos hty]
      dsimp only
      rw [unRef_createFun_count, call_xDestroy_createFun_count,
          db_error_events]
      have : ((S3JniUdf_alloc jvm jFunctor st).2).events = st.events := by
        unfold S3JniUdf_alloc
        dsimp only
        unfold mkRefSt
        split <;> rfl
      rw [this]

/-- A `JavaWorld` for the UDF classification witness: object 81 exposes
only `xFunc`, object 82 exposes `xStep`/`xFinal`, object 83 exposes
`xStep`/`xFinal`/`xValue`, and object 84 exposes none of them. -/
def exUdfJvm : JavaWorld :=
  { exJvm with
      method := fun o n =>
        if o = 81 then (if n = "xFunc" then some 31 else none)
        else if o = 82 then
          (if n = "xStep" then some 32
           else if n = "xFinal" then some 33 else none)
        else if o = 83 then
          (if n = "xStep" then some 32
           else if n = "xFinal" then some 33
           else if n = "xValue" then some 34 else none)
        else none }

/-- Witness for C4: the four classification outcomes at concrete functor
objects, including the failing registration of the methodless functor. -/
theorem C4_udf_classification_witness :
    ((S3JniUdf_alloc exUdfJvm ⟨1, 81⟩ BridgeState.init).1).type
        = UDFType.scalar ∧
    ((S3JniUdf_alloc exUdfJvm ⟨1, 82⟩ BridgeState.init).1).type
        = UDFType.aggregate ∧
    ((S3JniUdf_alloc exUdfJvm ⟨1, 83⟩ BridgeState.init).1).type
        = UDFType.window ∧
    ((S3JniUdf_alloc exUdfJvm ⟨1, 84⟩ BridgeState.init).1).type
        = UDFType.unknown ∧
    (sqlite3_create_function_jni exUdfJvm ⟨2, 40⟩ 1 SQLITE_UTF8 ⟨1, 84⟩
        true BridgeState.init).1 = SQLITE_MISUSE ∧
    ((sqlite3_create_function_jni exUdfJvm ⟨2, 40⟩ 1 SQLITE_UTF8 ⟨1, 84⟩
        true BridgeState.init).2.events).countP isCreateFunEvent =
      BridgeState.init.events.countP isCreateFunEvent := by
  have h1 := C4_udf_classification exUdfJvm BridgeState.init ⟨2, 40⟩ ⟨1, 81⟩
    1 SQLITE_UTF8 true (by decide)
  have h2 := C4_udf_classification exUdfJvm BridgeState.init ⟨2, 40⟩ ⟨1, 82⟩
    1 SQLITE_UTF8 true (by decide)
  have h3 := C4_udf_classification exUdfJvm BridgeState.init ⟨2, 40⟩ ⟨1, 83⟩
    1 SQLITE_UTF8 true (by decide)
  have h4 := C4_udf_classification exUdfJvm BridgeState.init ⟨2, 40⟩ ⟨1, 84⟩
    1 SQLITE_UTF8 true (by decide)
  exact ⟨h1.1 (by decide), h2.2.1 (by decide) (by decide) (by decide)
      (by decide),
    h3.2.2.1 (by decide) (by decide) (by decide) (by decide),
    (h4.2.2.2 (by decide) (by decide)).1,
    (h4.2.2.2 (by decide) (by decide)).2.1,
    (h4.2.2.2 (by decide) (by decide)).2.2⟩

/-! ## Connection open (claim C7) -/

@[simp] theorem env_cache_dbUsed (t : Nat) (st : BridgeState) :
    (S3JniGlobal_env_cache t st).2.dbUsed = st.dbUsed := by
  unfold S3JniGlobal_env_cache
  cases envFind t st with
  | some i => rfl
  | none => cases st.envFree <;> rfl

@[simp] theorem env_cache_dbFree (t : Nat) (st : BridgeState) :
    (S3JniGlobal_env_cache t st).2.dbFree = st.dbFree := by
  unfold S3JniGlobal_env_cache
  cases envFind t st with
  | some i => rfl
  | none => cases st.envFree <;> rfl

@[simp] theorem env_cache_dbRec (t : Nat) (st : BridgeState) :
    (S3JniGlobal_env_cache t st).2.dbRec = st.dbRec := by
  unfold S3JniGlobal_env_cache
  cases envFind t st with
  | some i => rfl
  | none => cases st.envFree <;> rfl

@[simp] theorem env_cache_dbNextId (t : Nat) (st : BridgeState) :
    (S3JniGlobal_env_cache t st).2.dbNextId = st.dbNextId := by
  unfold S3JniGlobal_env_cache
  cases envFind t st with
  | some i => rfl
  | none => cases st.envFree <;> rfl

@[simp] theorem unRef_envRow (v : JRef) (st : BridgeState) :
    (unRef v st).envRow = st.envRow := by
  unfold unRef; split <;> rfl

@[simp] theorem call_xDestroy_envRow (jvm : JavaWorld) (v : JRef)
    (st : BridgeState) :
    (s3jni_call_xDestroy jvm v st).envRow = st.envRow := by
  unfold s3jni_call_xDestroy; split
  · rfl
  · split <;> rfl

@[simp] theorem hook_unref_envRow (jvm : JavaWorld) (s : S3JniHook) (d : Bool)
    (st : BridgeState) :
    ((S3JniHook_unref jvm s d st).2).envRow = st.envRow := by
  unfold S3JniHook_unref; simp only [unRef_envRow]; split <;> simp

@[simp] theorem mkRefSt_envRow (v : JRef) (st : BridgeState) :
    (mkRefSt v st).envRow = st.envRow := by
  unfold mkRefSt; split <;> rfl

/-- `S3JniDb_set_aside` does not touch the env cache. -/
theorem S3JniDb_set_aside_envRow (jvm : JavaWorld) (sid : Nat)
    (st : BridgeState) :
    (S3JniDb_set_aside jvm sid st).envRow = st.envRow := by
  unfold S3JniDb_set_aside
  split
  · rfl
  · simp

@[simp] theorem alloc_envRow (pDb : Nat) (jDb : JRef) (st : BridgeState) :
    (S3JniDb_alloc pDb jDb st).2.envRow = st.envRow := by
  unfold S3JniDb_alloc
  cases st.dbFree <;> simp

/-- `new_NativePointerHolder_object` via the no-arg constructor plus
`NativePointerHolder_set`: allocates a fresh managed wrapper object (the
JVM aborts the process on OOM, so allocation always succeeds) holding the
given native pointer. -/
def new_sqlite3_wrapper (p : Nat) (st : BridgeState) : JRef × BridgeState :=
  (⟨st.nextTok, st.nextObj⟩,
   { st with
       nextObj := st.nextObj + 1
       nextTok := st.nextTok + 1
       nativePtr := Function.update st.nativePtr st.nextObj p })

/-- The outputs of `s3jni_open_pre`. -/
structure OpenPre where
  rc : Int
  jc : Nat
  zDbName : Option Nat
  ps : Nat
deriving DecidableEq, Repr

/-- `s3jni_open_pre(jc, jDbName, zDbName, ps)`: fetch the thread's env row,
convert the db name (a failed conversion reports `SQLITE_NOMEM` with
nothing allocated), create the not-yet-bound `sqlite3` wrapper, allocate
the connection record (handle still NULL) and store it in the env row's
`pdbOpening` slot. -/
def s3jni_open_pre (tid : Nat) (jDbName : Option Nat) (utf8Ok : Bool)
    (st : BridgeState) : OpenPre × BridgeState :=
  let jc := (S3JniGlobal_env_cache tid st).1
  let st1 := (S3JniGlobal_env_cache tid st).2
  if jDbName.isSome = true ∧ ¬utf8Ok = true then
    (⟨SQLITE_NOMEM, jc, none, 0⟩, st1)
  else
    let jDb := (new_sqlite3_wrapper 0 st1).1
    let st2 := (new_sqlite3_wrapper 0 st1).2
    let ps := (S3JniDb_alloc 0 jDb st2).1
    let st3 := (S3JniDb_alloc 0 jDb st2).2
    (⟨0, jc,
      (match jDbName with
       | some nn => if utf8Ok then some nn else none
       | none => none), ps⟩,
     { st3 with
         envRow := Function.update st3.envRow jc
           { st3.envRow jc with pdbOpening := ps } })

/-- `s3jni_open_post(jc, ps, ppDb, jOut, theRc)`: clear the thread's
`pdbOpening` slot; when the native open produced a handle, bind it into the
record and the wrapper (unless the auto-extension runner already did);
otherwise set the record aside (unlink, clear, recycle).  Returns `theRc`
and the value stored into the caller's `OutputPointer.sqlite3` (the wrapper
object, or the null object when the open failed). -/
def s3jni_open_post (jvm : JavaWorld) (jc ps : Nat) (pOut : Nat)
    (theRc : Int) (st : BridgeState) : Int × Nat × BridgeState :=
  let st1 := { st with
                 envRow := Function.update st.envRow jc
                   { st.envRow jc with pdbOpening := 0 } }
  if pOut ≠ 0 then
    if (st1.dbRec ps).pDb = 0 then
      let st2 := { st1 with
                     dbRec := Function.update st1.dbRec ps
                       { st1.dbRec ps with pDb := pOut } }
      let st3 := { st2 with
                     nativePtr := Function.update st2.nativePtr
                       ((st2.dbRec ps).jDb.obj) pOut }
      (theRc, (st3.dbRec ps).jDb.obj, st3)
    else
      (theRc, (st1.dbRec ps).jDb.obj, st1)
  else
    (theRc, 0, S3JniDb_set_aside jvm ps st1)

/-- The `sqlite3_open` JNI binding.  The native `sqlite3_open` call's
outcome is the `(nativeRc, nativeOut)` argument pair (the engine may run
the auto-extension hook during that call — modelled separately by
`s3jni_run_java_auto_extensions`).  `outInit` is the value the caller's
`OutputPointer.sqlite3` holds on entry; the returned middle component is
its value on exit.  Note that when `s3jni_open_pre` fails, this binding
returns without running `s3jni_open_post`, so the output pointer keeps its
entry value. -/
def sqlite3_open_jni (jvm : JavaWorld) (tid : Nat) (jDbName : Option Nat)
    (utf8Ok : Bool) (nativeRc : Int) (nativeOut : Nat) (outInit : Nat)
    (st : BridgeState) : Int × Nat × BridgeState :=
  let pre := (s3jni_open_pre tid jDbName utf8Ok st).1
  let st1 := (s3jni_open_pre tid jDbName utf8Ok st).2
  if pre.rc = 0 then
    s3jni_open_post jvm pre.jc pre.ps nativeOut nativeRc st1
  else (pre.rc, outInit, st1)

/-- The `sqlite3_open_v2` JNI binding: unlike `sqlite3_open`, it runs
`s3jni_open_post` unconditionally, so the output pointer is always
written. -/
def sqlite3_open_v2_jni (jvm : JavaWorld) (tid : Nat) (jDbName : Option Nat)
    (utf8Ok : Bool) (hasVfs vfsOk : Bool) (nativeRc : Int) (nativeOut : Nat)
    (st : BridgeState) : Int × Nat × BridgeState :=
  let pre := (s3jni_open_pre tid jDbName utf8Ok st).1
  let st1 := (s3jni_open_pre tid jDbName utf8Ok st).2
  let rc1 := if pre.rc = 0 ∧ hasVfs = true ∧ ¬vfsOk = true then SQLITE_NOMEM
             else pre.rc
  let rc2 := if rc1 = 0 then nativeRc else rc1
  let pOut := if rc1 = 0 then nativeOut else 0
  s3jni_open_post jvm pre.jc pre.ps pOut rc2 st1

@[simp] theorem wrapper_dbUsed (p : Nat) (st : BridgeState) :
    (new_sqlite3_wrapper p st).2.dbUsed = st.dbUsed := rfl

@[simp] theorem wrapper_dbFree (p : Nat) (st : BridgeState) :
    (new_sqlite3_wrapper p st).2.dbFree = st.dbFree := rfl

@[simp] theorem wrapper_dbRec (p : Nat) (st : BridgeState) :
    (new_sqlite3_wrapper p st).2.dbRec = st.dbRec := rfl

@[simp] theorem wrapper_dbNextId (p : Nat) (st : BridgeState) :
    (new_sqlite3_wrapper p st).2.dbNextId = st.dbNextId := rfl

/-- When the db-name conversion succeeds, `s3jni_open_pre` reports 0. -/
theorem open_pre_rc_success (tid : Nat) (dn : Option Nat) (ok : Bool)
    (st : BridgeState) (h : ¬(dn.isSome = true ∧ ¬ok = true)) :
    (s3jni_open_pre tid dn ok st).1.rc = 0 := by
  unfold s3jni_open_pre
  rw [if_neg h]

/-- The env-row id returned by `s3jni_open_pre` (either branch). -/
theorem open_pre_jc (tid : Nat) (dn : Option Nat) (ok : Bool)
    (st : BridgeState) :
    (s3jni_open_pre tid dn ok st).1.jc = (S3JniGlobal_env_cache tid st).1 := by
  unfold s3jni_open_pre
  split <;> rfl

/-- On the success path, the record id produced by `s3jni_open_pre` is the
one handed out by `S3JniDb_alloc`. -/
theorem open_pre_ps_success (tid : Nat) (dn : Option Nat) (ok : Bool)
    (st : BridgeState) (h : ¬(dn.isSome = true ∧ ¬ok = true)) :
    (s3jni_open_pre tid dn ok st).1.ps =
      (S3JniDb_alloc 0
        (new_sqlite3_wrapper 0 (S3JniGlobal_env_cache tid st).2).1
        (new_sqlite3_wrapper 0 (S3JniGlobal_env_cache tid st).2).2).1 := by
  unfold s3jni_open_pre
  rw [if_neg h]

/-- On the success path, the pre-state's used-list is the old used-list with
the fresh record id pushed. -/
theorem open_pre_dbUsed_success (tid : Nat) (dn : Option Nat) (ok : Bool)
    (st : BridgeState) (h : ¬(dn.isSome = true ∧ ¬ok = true)) :
    (s3jni_open_pre tid dn ok st).2.dbUsed =
      (s3jni_open_pre tid dn ok st).1.ps :: st.dbUsed := by
  rw [open_pre_ps_success tid dn ok st h]
  unfold s3jni_open_pre
  rw [if_neg h]
  show (S3JniDb_alloc 0 _ _).2.dbUsed = _
  rw [S3JniDb_alloc_used]
  simp

/-- On the success path, the pre-state's free-list is the old one minus its
head. -/
theorem open_pre_dbFree_success (tid : Nat) (dn : Option Nat) (ok : Bool)
    (st : BridgeState) (h : ¬(dn.isSome = true ∧ ¬ok = true)) :
    (s3jni_open_pre tid dn ok st).2.dbFree = st.dbFree.tail := by
  unfold s3jni_open_pre
  rw [if_neg h]
  show (S3JniDb_alloc 0 _ _).2.dbFree = _
  rw [S3JniDb_alloc_free]
  simp

/-- Arena ids are nonzero (0 encodes the NULL record), so the freshly
allocated record id is nonzero whenever the free-list and the high-water
mark are. -/
theorem open_pre_ps_ne_zero (tid : Nat) (dn : Option Nat) (ok : Bool)
    (st : BridgeState) (h : ¬(dn.isSome = true ∧ ¬ok = true))
    (hfree0 : ∀ i ∈ st.dbFree, i ≠ 0) (hnext0 : st.dbNextId ≠ 0) :
    (s3jni_open_pre tid dn ok st).1.ps ≠ 0 := by
  rw [open_pre_ps_success tid dn ok st h]
  by_cases hf : st.dbFree = []
  · rw [S3JniDb_alloc_rid_of_nil _ _ _ (by simp [hf])]
    simpa using hnext0
  · have hm := S3JniDb_alloc_rid_of_free 0
      (new_sqlite3_wrapper 0 (S3JniGlobal_env_cache tid st).2).1
      (new_sqlite3_wrapper 0 (S3JniGlobal_env_cache tid st).2).2
      (by simpa using hf)
    exact hfree0 _ (by simpa using hm)

/-- The freshly allocated record id is not in the caller's used-list. -/
theorem open_pre_ps_not_used (tid : Nat) (dn : Option Nat) (ok : Bool)
    (st : BridgeState) (h : ¬(dn.isSome = true ∧ ¬ok = true))
    (hinv : DbInvariant st) :
    (s3jni_open_pre tid dn ok st).1.ps ∉ st.dbUsed := by
  rw [open_pre_ps_success tid dn ok st h]
  by_cases hf : st.dbFree = []
  · rw [S3JniDb_alloc_rid_of_nil _ _ _ (by simp [hf])]
    have hn : (new_sqlite3_wrapper 0
        (S3JniGlobal_env_cache tid st).2).2.dbNextId = st.dbNextId := by simp
    rw [hn]
    intro hmem
    exact absurd (hinv.2.2.2.2.2.1 _ hmem) (lt_irrefl _)
  · have hm : (S3JniDb_alloc 0
        (new_sqlite3_wrapper 0 (S3JniGlobal_env_cache tid st).2).1
        (new_sqlite3_wrapper 0 (S3JniGlobal_env_cache tid st).2).2).1
          ∈ st.dbFree := by
      simpa using S3JniDb_alloc_rid_of_free 0
        (new_sqlite3_wrapper 0 (S3JniGlobal_env_cache tid st).2).1
        (new_sqlite3_wrapper 0 (S3JniGlobal_env_cache tid st).2).2
        (by simpa using hf)
    intro hmem
    exact hinv.2.2.1 _ hmem hm

/-- **C7** (corrected).  When a connection open fails, the cleanup promised
by the spec holds *except* for one clause of the `sqlite3_open` (v1)
binding: (a) when the native open returns no handle, the v1 binding reports
the native error code, nulls the output pointer, unlinks/clears/recycles
the pre-created record (no record for the failed open remains in the
used-list) and clears the thread's `pdbOpening` slot; but (b) when an
allocation during pre-open fails (db-name UTF-8 conversion), the v1 binding
returns `SQLITE_NOMEM` *without running `s3jni_open_post`*, so the caller's
output pointer keeps whatever value it held on entry — it is not set to
null; (c) the v2 binding does run the post step on that path and nulls the
output pointer. -/
theorem C7_open_failure_cleanup (jvm : JavaWorld) (st : BridgeState)
    (tid : Nat) (dn : Option Nat) (ok : Bool) (nativeRc : Int)
    (outInit n : Nat)
    (hinv : DbInvariant st)
    (hpre : dn = none ∨ ok = true)
    (_hrc : nativeRc ≠ 0)
    (hfree0 : ∀ i ∈ st.dbFree, i ≠ 0)
    (hnext0 : st.dbNextId ≠ 0) :
    (sqlite3_open_jni jvm tid dn ok nativeRc 0 outInit st).1 = nativeRc ∧
    (sqlite3_open_jni jvm tid dn ok nativeRc 0 outInit st).2.1 = 0 ∧
    (sqlite3_open_jni jvm tid dn ok nativeRc 0 outInit st).2.2.dbUsed
        = st.dbUsed ∧
    (s3jni_open_pre tid dn ok st).1.ps ∉ st.dbUsed ∧
    (sqlite3_open_jni jvm tid dn ok nativeRc 0 outInit st).2.2.dbRec
        ((s3jni_open_pre tid dn ok st).1.ps) = S3JniDb.empty ∧
    (s3jni_open_pre tid dn ok st).1.ps
        ∈ (sqlite3_open_jni jvm tid dn ok nativeRc 0 outInit st).2.2.dbFree ∧
    ((sqlite3_open_jni jvm tid dn ok nativeRc 0 outInit st).2.2.envRow
        ((s3jni_open_pre tid dn ok st).1.jc)).pdbOpening = 0 ∧
    (sqlite3_open_jni jvm tid (some n) false nativeRc 0 outInit st).1
        = SQLITE_NOMEM ∧
    (sqlite3_open_jni jvm tid (some n) false nativeRc 0 outInit st).2.1
        = outInit ∧
    (sqlite3_open_jni jvm tid (some n) false nativeRc 0 outInit st).2.2.dbUsed
        = st.dbUsed ∧
    (sqlite3_open_v2_jni jvm tid (some n) false false true nativeRc 0 st).1
        = SQLITE_NOMEM ∧
    (sqlite3_open_v2_jni jvm tid (some n) false false true nativeRc 0 st).2.1
        = 0 ∧
    (sqlite3_open_v2_jni jvm tid (some n) false false true nativeRc 0
        st).2.2.dbUsed = st.dbUsed := by
  have hnot : ¬(dn.isSome = true ∧ ¬ok = true) := by
    rcases hpre with h | h <;> simp [h]
  have hps0 : (s3jni_open_pre tid dn ok st).1.ps ≠ 0 :=
    open_pre_ps_ne_zero tid dn ok st hnot hfree0 hnext0
  have hopen : sqlite3_open_jni jvm tid dn ok nativeRc 0 outInit st =
      (nativeRc, 0,
       S3JniDb_set_aside jvm ((s3jni_open_pre tid dn ok st).1.ps)
         { (s3jni_open_pre tid dn ok st).2 with
             envRow := Function.update (s3jni_open_pre tid dn ok st).2.envRow
               ((s3jni_open_pre tid dn ok st).1.jc)
               { (s3jni_open_pre tid dn ok st).2.envRow
                   ((s3jni_open_pre tid dn ok st).1.jc) with
                   pdbOpening := 0 } }) := by
    unfold sqlite3_open_jni
    rw [if_pos (open_pre_rc_success tid dn ok st hnot)]
    unfold s3jni_open_post
    rw [if_neg (by simp)]
  have hfail : s3jni_open_pre tid (some n) false st =
      (⟨SQLITE_NOMEM, (S3JniGlobal_env_cache tid st).1, none, 0⟩,
       (S3JniGlobal_env_cache tid st).2) := by
    unfold s3jni_open_pre
    rw [if_pos ⟨rfl, by decide⟩]
  have hnm : ¬(SQLITE_NOMEM = (0 : Int)) := by decide
  have hopen2 : sqlite3_open_jni jvm tid (some n) false nativeRc 0 outInit st =
      (SQLITE_NOMEM, outInit, (S3JniGlobal_env_cache tid st).2) := by
    unfold sqlite3_open_jni
    rw [hfail]
    dsimp only
    rw [if_neg hnm]
  have hsa0 : ∀ s, S3JniDb_set_aside jvm 0 s = s := by
    intro s
    unfold S3JniDb_set_aside
    rw [if_pos rfl]
  have hopen3 : sqlite3_open_v2_jni jvm tid (some n) false false true
      nativeRc 0 st =
      (SQLITE_NOMEM, 0,
       { (S3JniGlobal_env_cache tid st).2 with
           envRow := Function.update (S3JniGlobal_env_cache tid st).2.envRow
             (S3JniGlobal_env_cache tid st).1
             { (S3JniGlobal_env_cache tid st).2.envRow
                 (S3JniGlobal_env_cache tid st).1 with
                 pdbOpening := 0 } }) := by
    unfold sqlite3_open_v2_jni
    rw [hfail]
    dsimp only
    rw [if_neg (by decide : ¬(SQLITE_NOMEM = (0 : Int) ∧ false = true
        ∧ ¬true = true))]
    rw [if_neg hnm, if_neg hnm]
    unfold s3jni_open_post
    rw [if_neg (by simp)]
    rw [hsa0]
  refine ⟨?_, ?_, ?_, open_pre_ps_not_used tid dn ok st hnot hinv,
    ?_, ?_, ?_, ?_, ?_, ?_, ?_, ?_, ?_⟩
  · rw [hopen]
  · rw [hopen]
  · rw [hopen]
    show (S3JniDb_set_aside jvm _ _).dbUsed = st.dbUsed
    rw [(S3JniDb_set_aside_shape jvm _ _ hps0).1]
    show ((s3jni_open_pre tid dn ok st).2.dbUsed).erase
        ((s3jni_open_pre tid dn ok st).1.ps) = st.dbUsed
    rw [open_pre_dbUsed_success tid dn ok st hnot]
    exact List.erase_cons_head _ _
  · rw [hopen]
    show (S3JniDb_set_aside jvm _ _).dbRec _ = S3JniDb.empty
    rw [(S3JniDb_set_aside_shape jvm _ _ hps0).2.2.2]
    exact Function.update_same _ _ _
  · rw [hopen]
    show _ ∈ (S3JniDb_set_aside jvm _ _).dbFree
    rw [(S3JniDb_set_aside_shape jvm _ _ hps0).2.1]
    exact List.mem_cons_self _ _
  · rw [hopen]
    show ((S3JniDb_set_aside jvm _ _).envRow _).pdbOpening = 0
    rw [S3JniDb_set_aside_envRow]
    show ((Function.update (s3jni_open_pre tid dn ok st).2.envRow
        ((s3jni_open_pre tid dn ok st).1.jc)
        { (s3jni_open_pre tid dn ok st).2.envRow
            ((s3jni_open_pre tid dn ok st).1.jc) with pdbOpening := 0 })
        ((s3jni_open_pre tid dn ok st).1.jc)).pdbOpening = 0
    rw [Function.update_same]
  · rw [hopen2]
  · rw [hopen2]
  · rw [hopen2]
    simp
  · rw [hopen3]
  · rw [hopen3]
  · rw [hopen3]
    show (S3JniGlobal_env_cache tid st).2.dbUsed = st.dbUsed
    simp

/-- Witness for C7: a concrete failed open from the initial bridge state
(native rc 1 with no handle; name-conversion failure with output pointer
initially 77). -/
theorem C7_open_failure_cleanup_witness :
    (sqlite3_open_jni exJvm 3 none true 1 0 77 BridgeState.init).1 = 1 ∧
    (sqlite3_open_jni exJvm 3 none true 1 0 77 BridgeState.init).2.1 = 0 ∧
    (sqlite3_open_jni exJvm 3 none true 1 0 77
        BridgeState.init).2.2.dbUsed = BridgeState.init.dbUsed ∧
    (s3jni_open_pre 3 none true BridgeState.init).1.ps
        ∉ BridgeState.init.dbUsed ∧
    (sqlite3_open_jni exJvm 3 none true 1 0 77 BridgeState.init).2.2.dbRec
        ((s3jni_open_pre 3 none true BridgeState.init).1.ps)
        = S3JniDb.empty ∧
    (s3jni_open_pre 3 none true BridgeState.init).1.ps
        ∈ (sqlite3_open_jni exJvm 3 none true 1 0 77
            BridgeState.init).2.2.dbFree ∧
    ((sqlite3_open_jni exJvm 3 none true 1 0 77 BridgeState.init).2.2.envRow
        ((s3jni_open_pre 3 none true BridgeState.init).1.jc)).pdbOpening
        = 0 ∧
    (sqlite3_open_jni exJvm 3 (some 5) false 1 0 77 BridgeState.init).1
        = SQLITE_NOMEM ∧
    (sqlite3_open_jni exJvm 3 (some 5) false 1 0 77 BridgeState.init).2.1
        = 77 ∧
    (sqlite3_open_jni exJvm 3 (some 5) false 1 0 77
        BridgeState.init).2.2.dbUsed = BridgeState.init.dbUsed ∧
    (sqlite3_open_v2_jni exJvm 3 (some 5) false false true 1 0
        BridgeState.init).1 = SQLITE_NOMEM ∧
    (sqlite3_open_v2_jni exJvm 3 (some 5) false false true 1 0
        BridgeState.init).2.1 = 0 ∧
    (sqlite3_open_v2_jni exJvm 3 (some 5) false false true 1 0
        BridgeState.init).2.2.dbUsed = BridgeState.init.dbUsed :=
  C7_open_failure_cleanup exJvm BridgeState.init 3 none true 1 77 5
    (by decide) (Or.inl rfl) (by decide) (by decide) (by decide)

/-- **C7 (counterexample).**  A `sqlite3_open` (v1) call whose db-name
UTF-8 conversion fails returns `SQLITE_NOMEM`, yet the caller's
`OutputPointer.sqlite3` keeps its entry value (here 77) — it is *not* set
to null, contradicting the claim's output-pointer clause; the
`sqlite3_open_v2` binding on the same inputs does null it. -/
theorem C7_open_v1_output_counterexample :
    (sqlite3_open_jni exJvm 3 (some 5) false 1 0 77 BridgeState.init).1
        = SQLITE_NOMEM ∧
    (sqlite3_open_jni exJvm 3 (some 5) false 1 0 77 BridgeState.init).2.1
        = 77 ∧
    (77 : Nat) ≠ 0 ∧
    (sqlite3_open_v2_jni exJvm 3 (some 5) false false true 1 0
        BridgeState.init).2.1 = 0 := by
  decide

end S3Jni
